import Mathlib

/-!
Verification of the pursuit-simulation core of the Escape_Road repository.

The JavaScript sources are shallowly embedded over exact rational arithmetic
(`ℚ`): JS numbers are modelled as rationals, so every definition is executable
and every concrete scenario can be evaluated by `decide` / `rfl`.

Two systematic modelling conventions are used:

* `Math.sqrt`, `Math.sin`, `Math.cos` are transcendental, so they are
  abstracted into a `JSMath` structure of rational-valued functions; theorems
  that depend on a particular value of one of these functions carry an explicit
  hypothesis pinning that value (e.g. `M.sqrt 25 = 5`).  Distance *comparisons*
  of the form `Math.sqrt d < r` (with `r ≥ 0`) are embedded as `d < r * r`,
  which is equivalent because `Math.sqrt` is strictly monotone on nonnegative
  inputs; each such site is noted in the embedding.

* The repository file `src/utils/helpers.js` (functions `checkAABBCollision`,
  `clamp`, `lerp`, `distance2D`) is not part of the provided sources; those
  helpers are modelled from the specification (spec §4.3: the overlap test is
  separating-axis on x and z only) and from their standard meaning, which the
  inlined copy of the AABB test in `EnemyChaser._checkBuildingCollisions`
  confirms (strict inequalities on both axes).
-/

namespace EscapeRoad

/-- A 2-D vector in the ground plane (the simulation ignores y for physics). -/
structure Vec2 where
  x : ℚ
  z : ℚ
  deriving DecidableEq, Repr

/-- An axis-aligned bounding box restricted to the x/z plane, matching the
`{min:{x,z}, max:{x,z}}` objects built by the sources (the y components of
those objects never participate in an overlap test of this core). -/
structure Box where
  minX : ℚ
  minZ : ℚ
  maxX : ℚ
  maxZ : ℚ
  deriving DecidableEq, Repr

/-- Modelled from the spec: `checkAABBCollision` of `src/utils/helpers.js` is
missing from the sources; spec §4.3 says the overlap test is separating-axis on
x and z only, and `EnemyChaser._checkBuildingCollisions` inlines exactly this
strict-inequality form. -/
def checkAABBCollision (a b : Box) : Bool :=
  a.minX < b.maxX && a.maxX > b.minX && a.minZ < b.maxZ && a.maxZ > b.minZ

/-- Modelled from the spec: `clamp` of `src/utils/helpers.js` (missing from the
sources) with its standard meaning, clamping `v` into `[lo, hi]`. -/
def clamp (v lo hi : ℚ) : ℚ := min (max v lo) hi

/-- Modelled from the spec: `lerp` of `src/utils/helpers.js` (missing from the
sources) with its standard meaning, linear interpolation from `a` to `b`. -/
def lerp (a b t : ℚ) : ℚ := a + (b - a) * t

/-- Abstraction of the JavaScript `Math` object: `sqrt`, `sin` and `cos` are
transcendental, so the embedding passes them in as rational-valued functions
and theorems pin the values actually used through hypotheses. -/
structure JSMath where
  sqrt : ℚ → ℚ
  sin : ℚ → ℚ
  cos : ℚ → ℚ

/-! ## Constants (src/utils/constants.js) -/

/-- PLAYER_CONFIG.MAX_SPEED. -/
def MAX_SPEED : ℚ := 28
/-- PLAYER_CONFIG.AUTO_FORWARD_SPEED. -/
def AUTO_FORWARD_SPEED : ℚ := 22
/-- PLAYER_CONFIG.ACCELERATION. -/
def ACCELERATION : ℚ := 4/5
/-- PLAYER_CONFIG.ROTATION_SPEED. -/
def PLAYER_ROTATION_SPEED : ℚ := 1/10
/-- PLAYER_CONFIG.BOOST_MULTIPLIER. -/
def BOOST_MULTIPLIER : ℚ := 9/5
/-- PLAYER_CONFIG.WIDTH. -/
def PLAYER_WIDTH : ℚ := 2
/-- PLAYER_CONFIG.LENGTH. -/
def PLAYER_LENGTH : ℚ := 7/2
/-- ENEMY_CONFIG.WIDTH. -/
def ENEMY_WIDTH : ℚ := 11/5
/-- ENEMY_CONFIG.LENGTH. -/
def ENEMY_LENGTH : ℚ := 4
/-- ENEMY_CONFIG.INITIAL_SPEED. -/
def ENEMY_INITIAL_SPEED : ℚ := 18
/-- ENEMY_CONFIG.CATCH_UP_SPEED. -/
def ENEMY_CATCH_UP_SPEED : ℚ := 23
/-- ENEMY_CONFIG.MAX_SPEED. -/
def ENEMY_MAX_SPEED : ℚ := 32
/-- ENEMY_CONFIG.MAX_DISTANCE. -/
def ENEMY_MAX_DISTANCE : ℚ := 50
/-- ENEMY_CONFIG.ROTATION_SPEED. -/
def ENEMY_ROTATION_SPEED : ℚ := 3/50

/-- WANTED_CONFIG.WANTED_THRESHOLDS: survival seconds at which each star
level is reached. -/
def WANTED_THRESHOLDS : List ℚ := [0, 20, 40, 70, 100]
/-- WANTED_CONFIG.MAX_WANTED_LEVEL. -/
def MAX_WANTED_LEVEL : Nat := 5
/-- WANTED_CONFIG.BASE_SPAWN_INTERVAL. -/
def BASE_SPAWN_INTERVAL : ℚ := 8
/-- WANTED_CONFIG.SPAWN_INTERVAL_REDUCTION. -/
def SPAWN_INTERVAL_REDUCTION : ℚ := 3/2
/-- WANTED_CONFIG.MIN_SPAWN_INTERVAL. -/
def MIN_SPAWN_INTERVAL : ℚ := 2
/-- WANTED_CONFIG.BASE_POLICE_COUNT. -/
def BASE_POLICE_COUNT : ℚ := 5
/-- WANTED_CONFIG.POLICE_PER_STAR. -/
def POLICE_PER_STAR : ℚ := 5

/-! ## WantedSystem (src/src/systems/SkidMarkSystem.js, second document) -/

/-- The threshold scan loop of `WantedSystem._updateWantedLevel`:
`newLevel = 1; for i: if (survivalTime >= thresholds[i]) newLevel = i + 1`. -/
def wantedScan (t : ℚ) : List ℚ → Nat → Nat → Nat
  | [], _, acc => acc
  | th :: rest, i, acc => wantedScan t rest (i + 1) (if th ≤ t then i + 1 else acc)

/-- `WantedSystem._updateWantedLevel`: the level computed from survival time
`t`, capped at `MAX_WANTED_LEVEL` (the surrounding ratchet only ever raises
`currentWantedLevel` to this value). -/
def wantedLevelOfTime (t : ℚ) : Nat :=
  min (wantedScan t WANTED_THRESHOLDS 0 1) MAX_WANTED_LEVEL

/-- `WantedSystem._getSpawnInterval`:
`max(BASE_SPAWN_INTERVAL - (level-1)*SPAWN_INTERVAL_REDUCTION, MIN_SPAWN_INTERVAL)`. -/
def spawnInterval (level : Nat) : ℚ :=
  max (BASE_SPAWN_INTERVAL - ((level : ℚ) - 1) * SPAWN_INTERVAL_REDUCTION)
    MIN_SPAWN_INTERVAL

/-- `WantedSystem._getMaxPoliceCount`:
`BASE_POLICE_COUNT + (level-1)*POLICE_PER_STAR`. -/
def maxPoliceCount (level : Nat) : ℚ :=
  BASE_POLICE_COUNT + ((level : ℚ) - 1) * POLICE_PER_STAR

/-- Closed form of the threshold scan on the concrete configuration. -/
theorem wantedLevelOfTime_eq (t : ℚ) :
    wantedLevelOfTime t =
      if 100 ≤ t then 5 else if 70 ≤ t then 4 else if 40 ≤ t then 3
        else if 20 ≤ t then 2 else 1 := by
  simp only [wantedLevelOfTime, WANTED_THRESHOLDS, MAX_WANTED_LEVEL, wantedScan]
  split_ifs <;> simp_all

/-- C6. Wanted/spawn policy: the wanted level is a monotone non-decreasing
step function of survival time, bounded in `[1, 5]`; the spawn interval is
non-increasing in the wanted level and clamped below by 2 seconds; the maximum
concurrent police count is non-decreasing in the wanted level. -/
theorem C6_wanted_spawn_policy :
    (∀ t₁ t₂ : ℚ, t₁ ≤ t₂ → wantedLevelOfTime t₁ ≤ wantedLevelOfTime t₂) ∧
    (∀ t : ℚ, 1 ≤ wantedLevelOfTime t ∧ wantedLevelOfTime t ≤ MAX_WANTED_LEVEL) ∧
    (∀ l₁ l₂ : Nat, l₁ ≤ l₂ → spawnInterval l₂ ≤ spawnInterval l₁) ∧
    (∀ l : Nat, MIN_SPAWN_INTERVAL ≤ spawnInterval l) ∧
    (∀ l₁ l₂ : Nat, l₁ ≤ l₂ → maxPoliceCount l₁ ≤ maxPoliceCount l₂) := by
  refine ⟨?_, ?_, ?_, ?_, ?_⟩
  · intro t₁ t₂ h
    rw [wantedLevelOfTime_eq, wantedLevelOfTime_eq]
    split_ifs <;> first | omega | (exfalso; linarith)
  · intro t
    rw [wantedLevelOfTime_eq]
    unfold MAX_WANTED_LEVEL
    split_ifs <;> omega
  · intro l₁ l₂ h
    unfold spawnInterval
    apply max_le_max_right
    unfold BASE_SPAWN_INTERVAL SPAWN_INTERVAL_REDUCTION
    have : (l₁ : ℚ) ≤ (l₂ : ℚ) := by exact_mod_cast h
    linarith
  · intro l
    exact le_max_right _ _
  · intro l₁ l₂ h
    unfold maxPoliceCount BASE_POLICE_COUNT POLICE_PER_STAR
    have : (l₁ : ℚ) ≤ (l₂ : ℚ) := by exact_mod_cast h
    linarith

/-- C6 witness: the policy theorem evaluated at concrete levels and times. -/
theorem C6_wanted_spawn_policy_witness :
    wantedLevelOfTime 25 ≤ wantedLevelOfTime 75 ∧
    spawnInterval 5 ≤ spawnInterval 2 ∧
    maxPoliceCount 2 ≤ maxPoliceCount 4 := by
  refine ⟨C6_wanted_spawn_policy.1 25 75 (by norm_num),
    C6_wanted_spawn_policy.2.2.1 2 5 (by norm_num),
    C6_wanted_spawn_policy.2.2.2.2 2 4 (by norm_num)⟩

/-! ## PlayerCar (EnemyChaser.js third document, lines 1055-1474: the PlayerCar
revision cited by the claims, with the trapped flag and the eased reverse) -/

/-- PLAYER_CONFIG.BOOST_DURATION (milliseconds). -/
def BOOST_DURATION : ℚ := 2000
/-- PLAYER_CONFIG.BOOST_COOLDOWN (milliseconds). -/
def BOOST_COOLDOWN : ℚ := 5000

/-- The input snapshot polled for the player (`this.input`). -/
structure Input where
  forward : Bool
  backward : Bool
  left : Bool
  right : Bool
  boost : Bool
  deriving DecidableEq, Repr

/-- The mutable state of `PlayerCar` (mesh/scene fields dropped; `posY` is the
`position.y` component, only touched by the falling animation). -/
structure PlayerState where
  pos : Vec2
  posY : ℚ
  vel : Vec2
  rotation : ℚ
  speed : ℚ
  targetSpeed : ℚ
  isAlive : Bool
  boostActive : Bool
  boostCooldownRemaining : ℚ
  boostTimeRemaining : ℚ
  input : Input
  distanceTraveled : ℚ
  isFalling : Bool
  fallSpeed : ℚ
  isCrashed : Bool
  crashStunTimer : ℚ
  crashReverseTimer : ℚ
  crashReverseDirection : Vec2
  isTrapped : Bool
  deriving DecidableEq, Repr

/-- `PlayerCar.die`. -/
def die (p : PlayerState) : PlayerState :=
  { p with isAlive := false, speed := 0 }

/-- `PlayerCar.setTrapped`. -/
def setTrapped (p : PlayerState) : PlayerState :=
  { p with isTrapped := true }

/-- Target speed selection at the top of `PlayerCar._applyInput`: reverse
uses 60% of the auto-forward speed; otherwise auto-forward, raised to
`MAX_SPEED * BOOST_MULTIPLIER` while boost is active. -/
def playerTargetSpeed (inp : Input) (boostActive : Bool) : ℚ :=
  if inp.backward then -AUTO_FORWARD_SPEED * (3/5)
  else if boostActive then MAX_SPEED * BOOST_MULTIPLIER
  else AUTO_FORWARD_SPEED

/-- `PlayerCar._applyInput`: target-speed selection, acceleration toward the
target (`ACCELERATION * 60 * dt` per step, saturating at the target), clamping
into `[-0.6*AUTO_FORWARD_SPEED, maxForward]`, steering, and recomputation of
velocity from the heading. -/
def applyInput (M : JSMath) (dt : ℚ) (p : PlayerState) : PlayerState :=
  let target := playerTargetSpeed p.input p.boostActive
  let acc := ACCELERATION * 60 * dt
  let s1 :=
    if p.speed < target then min (p.speed + acc) target
    else if p.speed > target then max (p.speed - acc) target
    else p.speed
  let maxForwardSpeed :=
    if p.boostActive then MAX_SPEED * BOOST_MULTIPLIER else MAX_SPEED
  let maxReverseSpeed := -AUTO_FORWARD_SPEED * (3/5)
  let s2 := clamp s1 maxReverseSpeed maxForwardSpeed
  let rot1 :=
    if p.input.left then p.rotation + PLAYER_ROTATION_SPEED * dt * 60
    else p.rotation
  let rot2 :=
    if p.input.right then rot1 - PLAYER_ROTATION_SPEED * dt * 60 else rot1
  { p with
    targetSpeed := target, speed := s2, rotation := rot2,
    vel := ⟨M.sin rot2 * s2, M.cos rot2 * s2⟩ }

/-- The snap-to-zero rule of `PlayerCar._updatePosition`: velocity components
with absolute value below 0.01 become exactly 0. -/
def snapSmall (v : ℚ) : ℚ := if |v| < 1/100 then 0 else v

/-- `PlayerCar._updatePosition`: integrate position by `velocity * dt`, damp
each velocity component by the friction factor 0.92, then snap components
below 0.01 to exactly zero. -/
def updatePlayerPosition (dt : ℚ) (p : PlayerState) : PlayerState :=
  { p with
    pos := ⟨p.pos.x + p.vel.x * dt, p.pos.z + p.vel.z * dt⟩,
    vel := ⟨snapSmall (p.vel.x * (23/25)), snapSmall (p.vel.z * (23/25))⟩ }

/-- `PlayerCar.activateBoost` (mesh recoloring dropped). -/
def activateBoost (p : PlayerState) : PlayerState :=
  { p with boostActive := true, boostTimeRemaining := BOOST_DURATION }

/-- `PlayerCar.deactivateBoost` (mesh recoloring dropped). -/
def deactivateBoost (p : PlayerState) : PlayerState :=
  { p with boostActive := false, boostCooldownRemaining := BOOST_COOLDOWN }

/-- `PlayerCar._updateBoost`: cooldown countdown, activation on request when
off cooldown, duration countdown and deactivation. -/
def updateBoost (dt : ℚ) (p : PlayerState) : PlayerState :=
  let p1 :=
    if p.boostCooldownRemaining > 0 then
      { p with boostCooldownRemaining := p.boostCooldownRemaining - dt * 1000 }
    else p
  let p2 :=
    if p1.input.boost ∧ p1.boostCooldownRemaining ≤ 0 ∧ ¬p1.boostActive then
      activateBoost p1
    else p1
  if p2.boostActive then
    let p3 := { p2 with boostTimeRemaining := p2.boostTimeRemaining - dt * 1000 }
    if p3.boostTimeRemaining ≤ 0 then deactivateBoost p3 else p3
  else p2

/-- `PlayerCar.updateFalling` (mesh tumble dropped). -/
def updateFalling (dt : ℚ) (p : PlayerState) : PlayerState :=
  let fs := p.fallSpeed + 30 * dt
  let y := p.posY - fs * dt
  let p1 := { p with fallSpeed := fs, posY := y }
  if y < -10 then die p1 else p1

/-- The eased reverse-speed envelope of crash phase 2 in `PlayerCar.update`:
accelerate over the first 30% of progress, hold 1 through the middle,
decelerate over the final 30%. -/
def reverseSpeedMultiplier (progress : ℚ) : ℚ :=
  if progress < 3/10 then progress / (3/10)
  else if progress > 7/10 then (1 - progress) / (3/10)
  else 1

/-- Crash phase 2 of `PlayerCar.update`: eased auto-reverse strictly along the
normalized captured direction, with velocity kept in sync, scalar speed pinned
to 0, and recovery (plus a 0.3 velocity decay) once the timer runs out.
`Math.sqrt` of the direction length is taken from the `JSMath` abstraction. -/
def crashReverseStep (M : JSMath) (dt : ℚ) (p : PlayerState) : PlayerState :=
  let maxReverseSpeed : ℚ := 12
  let reverseProgress := 1 - p.crashReverseTimer / (4/5)
  let speedMultiplier := reverseSpeedMultiplier reverseProgress
  let currentReverseSpeed := maxReverseSpeed * speedMultiplier
  let dirLength :=
    M.sqrt (p.crashReverseDirection.x ^ 2 + p.crashReverseDirection.z ^ 2)
  let p1 : PlayerState :=
    if dirLength > 1/100 then
      let normX := p.crashReverseDirection.x / dirLength
      let normZ := p.crashReverseDirection.z / dirLength
      { p with
        pos := ⟨p.pos.x + normX * currentReverseSpeed * dt,
                p.pos.z + normZ * currentReverseSpeed * dt⟩,
        vel := ⟨normX * currentReverseSpeed, normZ * currentReverseSpeed⟩ }
    else p
  let p2 : PlayerState :=
    { p1 with speed := 0, crashReverseTimer := p1.crashReverseTimer - dt }
  if p2.crashReverseTimer ≤ 0 then
    { p2 with
      isCrashed := false, crashReverseTimer := 0, crashStunTimer := 0,
      crashReverseDirection := ⟨0, 0⟩,
      vel := ⟨p2.vel.x * (3/10), p2.vel.z * (3/10)⟩ }
  else p2

/-- Crash phase 1 of `PlayerCar.update`: the stun, a full stop that ignores
input and only counts its timer down (mesh shake dropped). -/
def crashStunStep (dt : ℚ) (p : PlayerState) : PlayerState :=
  { p with vel := ⟨0, 0⟩, speed := 0, crashStunTimer := p.crashStunTimer - dt }

/-- The normal-control tail of `PlayerCar.update`: boost bookkeeping, input
application, position integration, and distance accumulation (which reads the
velocity left by `_updatePosition`). -/
def playerNormalStep (M : JSMath) (dt : ℚ) (p : PlayerState) : PlayerState :=
  let q := updatePlayerPosition dt (applyInput M dt (updateBoost dt p))
  { q with distanceTraveled :=
      q.distanceTraveled + M.sqrt (q.vel.x ^ 2 + q.vel.z ^ 2) * dt }

/-- `PlayerCar.update` (EnemyChaser.js lines 1175-1280): dead/trapped/falling
guards, then the two crash phases, then normal control.  The `modelLoaded`
and mesh guards are modelled as always passing. -/
def playerUpdate (M : JSMath) (dt : ℚ) (p : PlayerState) : PlayerState :=
  if ¬p.isAlive then p
  else if p.isTrapped then die p
  else if p.isFalling then updateFalling dt p
  else if p.isCrashed ∧ p.crashStunTimer > 0 then crashStunStep dt p
  else if p.isCrashed ∧ p.crashReverseTimer > 0 then crashReverseStep M dt p
  else playerNormalStep M dt p

/-! ## C9: velocity damping and snap-to-zero -/

/-- Clamping a value already inside the interval is the identity. -/
theorem clamp_eq_self {v lo hi : ℚ} (h1 : lo ≤ v) (h2 : v ≤ hi) :
    clamp v lo hi = v := by
  unfold clamp
  rw [max_eq_left h1, min_eq_left h2]

/-- The snap rule never increases the magnitude of a component. -/
theorem abs_snapSmall_le (v : ℚ) : |snapSmall v| ≤ |v| := by
  unfold snapSmall
  split_ifs with h
  · simp
  · exact le_refl _

/-- The damped-then-snapped component after `k` steps of
`updatePlayerPosition` is bounded by a geometric decay of the start value. -/
theorem iter_vel_bound (dt : ℚ) (p : PlayerState) (k : Nat) :
    |((updatePlayerPosition dt)^[k] p).vel.x| ≤ (23/25) ^ k * |p.vel.x| ∧
    |((updatePlayerPosition dt)^[k] p).vel.z| ≤ (23/25) ^ k * |p.vel.z| := by
  induction k with
  | zero => simp
  | succ n ih =>
    rw [Function.iterate_succ_apply']
    set q := (updatePlayerPosition dt)^[n] p with hq
    constructor
    · calc |(updatePlayerPosition dt q).vel.x| = |snapSmall (q.vel.x * (23/25))| := rfl
        _ ≤ |q.vel.x * (23/25)| := abs_snapSmall_le _
        _ = |q.vel.x| * (23/25) := by rw [abs_mul]; norm_num
        _ ≤ ((23/25) ^ n * |p.vel.x|) * (23/25) := by
            have := ih.1
            nlinarith [abs_nonneg q.vel.x]
        _ = (23/25) ^ (n + 1) * |p.vel.x| := by ring
    · calc |(updatePlayerPosition dt q).vel.z| = |snapSmall (q.vel.z * (23/25))| := rfl
        _ ≤ |q.vel.z * (23/25)| := abs_snapSmall_le _
        _ = |q.vel.z| * (23/25) := by rw [abs_mul]; norm_num
        _ ≤ ((23/25) ^ n * |p.vel.z|) * (23/25) := by
            have := ih.2
            nlinarith [abs_nonneg q.vel.z]
        _ = (23/25) ^ (n + 1) * |p.vel.z| := by ring

/-- Once both velocity components are exactly zero, a position update leaves
both the velocity and the position unchanged. -/
theorem updatePlayerPosition_zero_vel (dt : ℚ) (p : PlayerState)
    (h : p.vel = ⟨0, 0⟩) :
    (updatePlayerPosition dt p).vel = ⟨0, 0⟩ ∧
    (updatePlayerPosition dt p).pos = p.pos := by
  unfold updatePlayerPosition snapSmall
  rw [h]
  norm_num

/-- C9. Every player position update advances position by `velocity * dt`,
multiplies each velocity component by the damping factor 0.92 = 23/25, snaps
any component whose damped magnitude is below 0.01 to exactly zero, and as a
consequence iterated updates reach exactly-zero velocity after finitely many
steps, after which the position never changes again (no indefinite drift). -/
theorem C9_damping_and_snap :
    (∀ dt : ℚ, ∀ p : PlayerState,
      (updatePlayerPosition dt p).pos.x = p.pos.x + p.vel.x * dt ∧
      (updatePlayerPosition dt p).pos.z = p.pos.z + p.vel.z * dt) ∧
    (∀ dt : ℚ, ∀ p : PlayerState,
      ((|p.vel.x * (23/25)| < 1/100 ∧ (updatePlayerPosition dt p).vel.x = 0) ∨
        (¬(|p.vel.x * (23/25)| < 1/100) ∧
          (updatePlayerPosition dt p).vel.x = p.vel.x * (23/25))) ∧
      ((|p.vel.z * (23/25)| < 1/100 ∧ (updatePlayerPosition dt p).vel.z = 0) ∨
        (¬(|p.vel.z * (23/25)| < 1/100) ∧
          (updatePlayerPosition dt p).vel.z = p.vel.z * (23/25)))) ∧
    (∀ dt : ℚ, ∀ p : PlayerState, ∃ n : Nat, ∀ m : Nat, n ≤ m →
      ((updatePlayerPosition dt)^[m] p).vel = ⟨0, 0⟩ ∧
      ((updatePlayerPosition dt)^[m] p).pos =
        ((updatePlayerPosition dt)^[n] p).pos) := by
  refine ⟨fun dt p => ⟨rfl, rfl⟩, ?_, ?_⟩
  · intro dt p
    constructor
    · by_cases h : |p.vel.x * (23/25)| < 1/100
      · refine Or.inl ⟨h, ?_⟩
        show snapSmall (p.vel.x * (23/25)) = 0
        unfold snapSmall
        rw [if_pos h]
      · refine Or.inr ⟨h, ?_⟩
        show snapSmall (p.vel.x * (23/25)) = p.vel.x * (23/25)
        unfold snapSmall
        rw [if_neg h]
    · by_cases h : |p.vel.z * (23/25)| < 1/100
      · refine Or.inl ⟨h, ?_⟩
        show snapSmall (p.vel.z * (23/25)) = 0
        unfold snapSmall
        rw [if_pos h]
      · refine Or.inr ⟨h, ?_⟩
        show snapSmall (p.vel.z * (23/25)) = p.vel.z * (23/25)
        unfold snapSmall
        rw [if_neg h]
  · intro dt p
    set c := max |p.vel.x| |p.vel.z| with hc
    have hc0 : 0 ≤ c := le_trans (abs_nonneg _) (le_max_left _ _)
    obtain ⟨n0, hn0⟩ : ∃ n : ℕ, (23/25 : ℚ) ^ n < (1/100) / (c + 1) :=
      exists_pow_lt_of_lt_one (by positivity) (by norm_num)
    have hsmall : ∀ k : Nat, n0 ≤ k →
        |((updatePlayerPosition dt)^[k] p).vel.x| < 1/100 ∧
        |((updatePlayerPosition dt)^[k] p).vel.z| < 1/100 := by
      intro k hk
      have hpow : (23/25 : ℚ) ^ k ≤ (23/25) ^ n0 :=
        pow_le_pow_of_le_one (by norm_num) (by norm_num) hk
      have hbx := (iter_vel_bound dt p k).1
      have hbz := (iter_vel_bound dt p k).2
      have hxc : |p.vel.x| ≤ c := le_max_left _ _
      have hzc : |p.vel.z| ≤ c := le_max_right _ _
      have hcpos : (0 : ℚ) < c + 1 := by linarith
      have hmul : (23/25 : ℚ) ^ k * c < 1/100 := by
        have h1 : (23/25 : ℚ) ^ k * c ≤ (23/25) ^ n0 * c := by
          have := pow_nonneg (by norm_num : (0:ℚ) ≤ 23/25) k
          nlinarith
        have h2 : (23/25 : ℚ) ^ n0 * c < (1/100) / (c + 1) * (c + 1) := by
          have := pow_nonneg (by norm_num : (0:ℚ) ≤ 23/25) n0
          nlinarith
        rw [div_mul_cancel₀] at h2
        · linarith
        · linarith
      have hpk := pow_nonneg (by norm_num : (0:ℚ) ≤ 23/25) k
      constructor
      · calc |((updatePlayerPosition dt)^[k] p).vel.x|
            ≤ (23/25) ^ k * |p.vel.x| := hbx
          _ ≤ (23/25) ^ k * c := by nlinarith
          _ < 1/100 := hmul
      · calc |((updatePlayerPosition dt)^[k] p).vel.z|
            ≤ (23/25) ^ k * |p.vel.z| := hbz
          _ ≤ (23/25) ^ k * c := by nlinarith
          _ < 1/100 := hmul
    refine ⟨n0 + 1, ?_⟩
    have hzero : ((updatePlayerPosition dt)^[n0 + 1] p).vel = ⟨0, 0⟩ := by
      rw [Function.iterate_succ_apply']
      set q := (updatePlayerPosition dt)^[n0] p with hq
      obtain ⟨hx, hz⟩ := hsmall n0 (le_refl _)
      have hx1 : |q.vel.x * (23/25)| < 1/100 := by
        rw [abs_mul]
        have : |q.vel.x| * |(23/25 : ℚ)| ≤ |q.vel.x| := by
          rw [abs_of_nonneg (by norm_num : (0:ℚ) ≤ 23/25)]
          nlinarith [abs_nonneg q.vel.x]
        linarith
      have hz1 : |q.vel.z * (23/25)| < 1/100 := by
        rw [abs_mul]
        have : |q.vel.z| * |(23/25 : ℚ)| ≤ |q.vel.z| := by
          rw [abs_of_nonneg (by norm_num : (0:ℚ) ≤ 23/25)]
          nlinarith [abs_nonneg q.vel.z]
        linarith
      have ex : snapSmall (q.vel.x * (23/25)) = 0 := by
        unfold snapSmall
        rw [if_pos hx1]
      have ez : snapSmall (q.vel.z * (23/25)) = 0 := by
        unfold snapSmall
        rw [if_pos hz1]
      show (⟨snapSmall (q.vel.x * (23/25)), snapSmall (q.vel.z * (23/25))⟩ : Vec2) = ⟨0, 0⟩
      rw [ex, ez]
    have hstay : ∀ j : Nat,
        ((updatePlayerPosition dt)^[n0 + 1 + j] p).vel = ⟨0, 0⟩ ∧
        ((updatePlayerPosition dt)^[n0 + 1 + j] p).pos =
          ((updatePlayerPosition dt)^[n0 + 1] p).pos := by
      intro j
      induction j with
      | zero => exact ⟨hzero, rfl⟩
      | succ i ih =>
        have heq : n0 + 1 + (i + 1) = (n0 + 1 + i) + 1 := by omega
        rw [heq, Function.iterate_succ_apply']
        obtain ⟨hv, hp⟩ := ih
        obtain ⟨hv2, hp2⟩ := updatePlayerPosition_zero_vel dt _ hv
        exact ⟨hv2, by rw [hp2, hp]⟩
    intro m hm
    obtain ⟨j, rfl⟩ : ∃ j, m = n0 + 1 + j := ⟨m - (n0 + 1), by omega⟩
    exact hstay j

/-- Default player state as built by the `PlayerCar` constructor (rotation
`Math.PI` is represented by the symbolic heading value it feeds into the
`JSMath` trig abstraction; here the concrete scenarios fix rotation 0). -/
def basePlayer : PlayerState where
  pos := ⟨0, 0⟩
  posY := 0
  vel := ⟨0, 0⟩
  rotation := 0
  speed := 0
  targetSpeed := 0
  isAlive := true
  boostActive := false
  boostCooldownRemaining := 0
  boostTimeRemaining := 0
  input := ⟨false, false, false, false, false⟩
  distanceTraveled := 0
  isFalling := false
  fallSpeed := 0
  isCrashed := false
  crashStunTimer := 0
  crashReverseTimer := 0
  crashReverseDirection := ⟨0, 0⟩
  isTrapped := false

/-- A dummy `Math` instance for scenarios in which no trigonometric or square
root value influences the checked fields. -/
def M0 : JSMath := ⟨fun _ => 0, fun _ => 0, fun _ => 0⟩

/-- C9 witness: the characterization applied at a concrete state with
velocity `(3, 0.005)` and `dt = 1/60`. -/
theorem C9_damping_and_snap_witness :
    (updatePlayerPosition (1/60) { basePlayer with vel := ⟨3, 1/200⟩ }).pos.x =
      basePlayer.pos.x + 3 * (1/60) ∧
    ((|(3 : ℚ) * (23/25)| < 1/100 ∧
        (updatePlayerPosition (1/60) { basePlayer with vel := ⟨3, 1/200⟩ }).vel.x = 0) ∨
      (¬(|(3 : ℚ) * (23/25)| < 1/100) ∧
        (updatePlayerPosition (1/60) { basePlayer with vel := ⟨3, 1/200⟩ }).vel.x =
          3 * (23/25))) := by
  exact ⟨(C9_damping_and_snap.1 (1/60) { basePlayer with vel := ⟨3, 1/200⟩ }).1,
    (C9_damping_and_snap.2.1 (1/60) { basePlayer with vel := ⟨3, 1/200⟩ }).1⟩

/-! ## C7: player speed convergence and bounds -/

/-- The reverse floor used by the clamp in `_applyInput`
(`-0.6 * AUTO_FORWARD_SPEED`). -/
def playerMinSpeed : ℚ := -AUTO_FORWARD_SPEED * (3/5)

/-- The forward cap used by the clamp in `_applyInput` (`MAX_SPEED`, raised by
`BOOST_MULTIPLIER` while boost is active). -/
def playerMaxSpeed (boostActive : Bool) : ℚ :=
  if boostActive then MAX_SPEED * BOOST_MULTIPLIER else MAX_SPEED

/-- The scalar-speed component of `_applyInput`, exposed for reasoning: the
updated speed equals the move-toward-target value clamped into the limits. -/
theorem applyInput_speed (M : JSMath) (dt : ℚ) (p : PlayerState) :
    (applyInput M dt p).speed =
      clamp
        (if p.speed < playerTargetSpeed p.input p.boostActive then
          min (p.speed + ACCELERATION * 60 * dt)
            (playerTargetSpeed p.input p.boostActive)
        else if p.speed > playerTargetSpeed p.input p.boostActive then
          max (p.speed - ACCELERATION * 60 * dt)
            (playerTargetSpeed p.input p.boostActive)
        else p.speed)
        playerMinSpeed (playerMaxSpeed p.boostActive) := rfl

/-- The input snapshot and the boost flag are not modified by `_applyInput`. -/
theorem applyInput_keeps (M : JSMath) (dt : ℚ) (p : PlayerState) :
    (applyInput M dt p).input = p.input ∧
    (applyInput M dt p).boostActive = p.boostActive := ⟨rfl, rfl⟩

/-- Every reachable target speed lies inside the clamp interval. -/
theorem playerTargetSpeed_mem (inp : Input) (b : Bool) :
    playerMinSpeed ≤ playerTargetSpeed inp b ∧
    playerTargetSpeed inp b ≤ playerMaxSpeed b := by
  unfold playerTargetSpeed playerMinSpeed playerMaxSpeed AUTO_FORWARD_SPEED
    MAX_SPEED BOOST_MULTIPLIER
  split_ifs <;> norm_num

/-- The clamp interval is nonempty. -/
theorem playerMinSpeed_le_max (b : Bool) : playerMinSpeed ≤ playerMaxSpeed b := by
  unfold playerMinSpeed playerMaxSpeed AUTO_FORWARD_SPEED MAX_SPEED
    BOOST_MULTIPLIER
  split_ifs <;> norm_num

/-- One step of the speed update shrinks the distance to the target by
exactly the per-step acceleration, saturating at zero, provided the current
speed lies inside the clamp interval. -/
theorem speed_gap_step (M : JSMath) (dt : ℚ) (p : PlayerState)
    (hdt : 0 ≤ dt)
    (hlo : playerMinSpeed ≤ p.speed)
    (hhi : p.speed ≤ playerMaxSpeed p.boostActive) :
    |(applyInput M dt p).speed - playerTargetSpeed p.input p.boostActive| =
      max (|p.speed - playerTargetSpeed p.input p.boostActive| -
        ACCELERATION * 60 * dt) 0 := by
  have hacc : (0 : ℚ) ≤ ACCELERATION * 60 * dt := by
    unfold ACCELERATION
    nlinarith
  obtain ⟨htlo, hthi⟩ := playerTargetSpeed_mem p.input p.boostActive
  rw [applyInput_speed]
  set target := playerTargetSpeed p.input p.boostActive with htarget
  set acc := ACCELERATION * 60 * dt with haccd
  rcases lt_trichotomy p.speed target with hlt | heq | hgt
  · rw [if_pos hlt]
    have h1 : playerMinSpeed ≤ min (p.speed + acc) target :=
      le_min (by linarith) htlo
    have h2 : min (p.speed + acc) target ≤ playerMaxSpeed p.boostActive :=
      le_trans (min_le_right _ _) hthi
    rw [clamp_eq_self h1 h2]
    have e1 : |min (p.speed + acc) target - target| =
        target - min (p.speed + acc) target := by
      rw [abs_of_nonpos (sub_nonpos.mpr (min_le_right _ _))]
      ring
    have e2 : |p.speed - target| = target - p.speed := by
      rw [abs_of_nonpos (by linarith)]
      ring
    rw [e1, e2]
    rcases le_total (p.speed + acc) target with hle | hge
    · rw [min_eq_left hle, max_eq_left (by linarith)]
      ring
    · rw [min_eq_right hge, max_eq_right (by linarith)]
      ring
  · rw [heq]
    rw [if_neg (lt_irrefl _), if_neg (lt_irrefl _)]
    rw [clamp_eq_self htlo hthi, sub_self, abs_zero,
      max_eq_right (by linarith)]
  · rw [if_neg (by linarith), if_pos hgt]
    have h1 : playerMinSpeed ≤ max (p.speed - acc) target :=
      le_trans htlo (le_max_right _ _)
    have h2 : max (p.speed - acc) target ≤ playerMaxSpeed p.boostActive :=
      max_le (by linarith) hthi
    rw [clamp_eq_self h1 h2]
    have e1 : |max (p.speed - acc) target - target| =
        max (p.speed - acc) target - target := by
      rw [abs_of_nonneg (sub_nonneg.mpr (le_max_right _ _))]
    have e2 : |p.speed - target| = p.speed - target := by
      rw [abs_of_nonneg (by linarith)]
    rw [e1, e2]
    rcases le_total target (p.speed - acc) with hle | hge
    · rw [max_eq_left hle, max_eq_left (by linarith)]
      ring
    · rw [max_eq_right hge, max_eq_right (by linarith)]
      ring

/-- The speed update is always clamped into the limits. -/
theorem applyInput_speed_bounds (M : JSMath) (dt : ℚ) (p : PlayerState) :
    playerMinSpeed ≤ (applyInput M dt p).speed ∧
    (applyInput M dt p).speed ≤ playerMaxSpeed p.boostActive := by
  rw [applyInput_speed]
  unfold clamp
  refine ⟨?_, min_le_right _ _⟩
  exact le_min (le_max_right _ _) (playerMinSpeed_le_max _)

/-- Iterating `_applyInput` with a fixed input snapshot keeps the snapshot
and boost flag, keeps the speed inside the limits, and shrinks the distance
to the target linearly in the step count (saturating at zero). -/
theorem speed_gap_iterate (M : JSMath) (dt : ℚ) (p : PlayerState) (n : Nat)
    (hdt : 0 ≤ dt)
    (hlo : playerMinSpeed ≤ p.speed)
    (hhi : p.speed ≤ playerMaxSpeed p.boostActive) :
    (((applyInput M dt)^[n] p).input = p.input ∧
      ((applyInput M dt)^[n] p).boostActive = p.boostActive) ∧
    (playerMinSpeed ≤ ((applyInput M dt)^[n] p).speed ∧
      ((applyInput M dt)^[n] p).speed ≤ playerMaxSpeed p.boostActive) ∧
    |((applyInput M dt)^[n] p).speed -
        playerTargetSpeed p.input p.boostActive| ≤
      max (|p.speed - playerTargetSpeed p.input p.boostActive| -
        (n : ℚ) * (ACCELERATION * 60 * dt)) 0 := by
  have hacc : (0 : ℚ) ≤ ACCELERATION * 60 * dt := by
    unfold ACCELERATION
    nlinarith
  induction n with
  | zero =>
    refine ⟨⟨rfl, rfl⟩, ⟨hlo, hhi⟩, ?_⟩
    simp only [Function.iterate_zero, id_eq, Nat.cast_zero, zero_mul, sub_zero]
    exact le_max_left _ _
  | succ k ih =>
    obtain ⟨⟨hki, hkb⟩, ⟨hklo, hkhi⟩, hkgap⟩ := ih
    set q := (applyInput M dt)^[k] p with hq
    have hstep := speed_gap_step M dt q hdt hklo (by rw [hkb]; exact hkhi)
    rw [hki, hkb] at hstep
    rw [Function.iterate_succ_apply']
    refine ⟨⟨?_, ?_⟩, ?_, ?_⟩
    · rw [← hq, (applyInput_keeps M dt q).1, hki]
    · rw [← hq, (applyInput_keeps M dt q).2, hkb]
    · have hb := applyInput_speed_bounds M dt q
      rw [hkb] at hb
      rw [← hq]
      exact hb
    · rw [← hq, hstep]
      set T := playerTargetSpeed p.input p.boostActive with hT
      set a := ACCELERATION * 60 * dt with ha
      have hcast : ((k + 1 : Nat) : ℚ) = (k : ℚ) + 1 := by push_cast; ring
      rw [hcast]
      rcases le_total (|q.speed - T| - a) 0 with hneg | hpos
      · rw [max_eq_right hneg]
        exact le_max_right _ _
      · rw [max_eq_left hpos]
        rcases le_total (|p.speed - T| - (k : ℚ) * a) 0 with h2 | h2
        · rw [max_eq_right h2] at hkgap
          have h3 := abs_nonneg (q.speed - T)
          have h4 : |q.speed - T| = 0 := le_antisymm hkgap h3
          have h5 : (0 : ℚ) ≤ max (|p.speed - T| - ((k : ℚ) + 1) * a) 0 :=
            le_max_right _ _
          linarith
        · rw [max_eq_left h2] at hkgap
          have h5 : |p.speed - T| - ((k : ℚ) + 1) * a ≤
              max (|p.speed - T| - ((k : ℚ) + 1) * a) 0 := le_max_left _ _
          have h6 : |p.speed - T| - ((k : ℚ) + 1) * a =
              (|p.speed - T| - (k : ℚ) * a) - a := by ring
          linarith

/-- C7 (amended). After every `_applyInput` step the scalar speed lies in
`[-0.6 * AUTO_FORWARD_SPEED, maxForward]` (the cap being `MAX_SPEED`, or
`MAX_SPEED * BOOST_MULTIPLIER` while boost is active), for any state and any
input; and for a fixed input snapshot and boost flag, starting from a speed
already inside those limits (true from the second tick onward), the distance
to the target speed shrinks by exactly `ACCELERATION * 60 * dt` per step,
saturating at zero and never overshooting, so after `n` steps with
`n * acceleration ≥` the initial gap the speed equals the target exactly. -/
theorem C7_speed_convergence_and_bounds :
    (∀ (M : JSMath) (dt : ℚ) (p : PlayerState),
      playerMinSpeed ≤ (applyInput M dt p).speed ∧
      (applyInput M dt p).speed ≤ playerMaxSpeed p.boostActive) ∧
    (∀ (M : JSMath) (dt : ℚ) (p : PlayerState), 0 ≤ dt →
      playerMinSpeed ≤ p.speed → p.speed ≤ playerMaxSpeed p.boostActive →
      |(applyInput M dt p).speed - playerTargetSpeed p.input p.boostActive| =
        max (|p.speed - playerTargetSpeed p.input p.boostActive| -
          ACCELERATION * 60 * dt) 0) ∧
    (∀ (M : JSMath) (dt : ℚ) (p : PlayerState) (n : Nat), 0 ≤ dt →
      playerMinSpeed ≤ p.speed → p.speed ≤ playerMaxSpeed p.boostActive →
      |((applyInput M dt)^[n] p).speed -
          playerTargetSpeed p.input p.boostActive| ≤
        max (|p.speed - playerTargetSpeed p.input p.boostActive| -
          (n : ℚ) * (ACCELERATION * 60 * dt)) 0) ∧
    (∀ (M : JSMath) (dt : ℚ) (p : PlayerState) (n : Nat), 0 ≤ dt →
      playerMinSpeed ≤ p.speed → p.speed ≤ playerMaxSpeed p.boostActive →
      |p.speed - playerTargetSpeed p.input p.boostActive| ≤
        (n : ℚ) * (ACCELERATION * 60 * dt) →
      ((applyInput M dt)^[n] p).speed =
        playerTargetSpeed p.input p.boostActive) := by
  refine ⟨fun M dt p => applyInput_speed_bounds M dt p,
    fun M dt p => speed_gap_step M dt p, ?_, ?_⟩
  · intro M dt p n hdt hlo hhi
    exact (speed_gap_iterate M dt p n hdt hlo hhi).2.2
  · intro M dt p n hdt hlo hhi hgap
    have h := (speed_gap_iterate M dt p n hdt hlo hhi).2.2
    rw [max_eq_right (by linarith)] at h
    have h0 := abs_nonneg (((applyInput M dt)^[n] p).speed -
      playerTargetSpeed p.input p.boostActive)
    have h1 := abs_eq_zero.mp (le_antisymm h h0)
    linarith [h1]

/-- C7 witness: from a standing start with no input and no boost, one tick
with `dt = 1` closes the 22-unit gap to the auto-forward target exactly. -/
theorem C7_speed_convergence_and_bounds_witness :
    (0 : ℚ) ≤ 1 ∧
    ((applyInput M0 1)^[1] basePlayer).speed =
      playerTargetSpeed basePlayer.input basePlayer.boostActive := by
  refine ⟨by norm_num, C7_speed_convergence_and_bounds.2.2.2 M0 1
    basePlayer 1 (by norm_num) ?_ ?_ ?_⟩
  · show playerMinSpeed ≤ (0 : ℚ)
    norm_num [playerMinSpeed, AUTO_FORWARD_SPEED]
  · show (0 : ℚ) ≤ playerMaxSpeed false
    norm_num [playerMaxSpeed, MAX_SPEED]
  · show |(0 : ℚ) - playerTargetSpeed basePlayer.input false| ≤
      (1 : ℚ) * (ACCELERATION * 60 * 1)
    norm_num [playerTargetSpeed, basePlayer, AUTO_FORWARD_SPEED, ACCELERATION]

/-- C7 counterexample: with boost just expired (speed `50.4`, boost off,
target the auto-forward 22), a single `_applyInput` step at 60 Hz moves the
speed by `22.4`, far more than the per-step acceleration `0.8`; so the claim
that the speed approaches the target by at most the fixed acceleration per
step fails for speeds outside the active clamp range. -/
theorem C7_counterexample :
    (applyInput M0 (1/60) { basePlayer with speed := 252/5 }).speed = 28 ∧
    |(applyInput M0 (1/60) { basePlayer with speed := 252/5 }).speed -
        (252/5 : ℚ)| = 112/5 ∧
    ACCELERATION * 60 * (1/60) = 4/5 ∧ (4/5 : ℚ) < 112/5 := by
  have h : (applyInput M0 (1/60) { basePlayer with speed := 252/5 }).speed =
      28 := by
    simp only [applyInput, playerTargetSpeed, clamp, basePlayer, M0,
      ACCELERATION, AUTO_FORWARD_SPEED, MAX_SPEED, BOOST_MULTIPLIER,
      PLAYER_ROTATION_SPEED]
    norm_num
  refine ⟨h, ?_, by norm_num [ACCELERATION], by norm_num⟩
  rw [h]
  norm_num

/-! ## C3: pursuit strategy selection (EnemyChaser.js lines 42-47, 295-320) -/

/-- The three pursuit behaviors selected in `_updatePursuitAI`. -/
inductive Strategy where
  | headOn
  | leftFlank
  | rightFlank
  deriving DecidableEq, Repr

/-- The per-agent random lateral offset drawn once in the `EnemyChaser`
constructor: `pursuitOffset.x = (Math.random() - 0.5) * 10`, as a function of
the uniform sample `r ∈ [0,1)`. -/
def pursuitOffsetX (r : ℚ) : ℚ := (r - 1/2) * 10

/-- The strategy scalar of `_updatePursuitAI`:
`strategyVariant = (this.pursuitOffset.x + 10) / 20`. -/
def strategyVariant (r : ℚ) : ℚ := (pursuitOffsetX r + 10) / 20

/-- The branch structure of the strategy selection in `_updatePursuitAI`:
head-on blocker below 0.33, left flank below 0.66, right flank otherwise. -/
def strategyOf (v : ℚ) : Strategy :=
  if v < 33/100 then Strategy.headOn
  else if v < 66/100 then Strategy.leftFlank
  else Strategy.rightFlank

/-- C3 counterexample: for the spawn sample `r = 0.16` the strategy scalar is
exactly `0.33`, which is below `1/3`, yet the code selects the left flank and
not the head-on blocker: the claimed thresholds "exactly 1/3 and 2/3" do not
match the code thresholds 0.33 and 0.66. -/
theorem C3_counterexample :
    strategyVariant (16/100) = 33/100 ∧
    (33/100 : ℚ) < 1/3 ∧
    strategyOf (strategyVariant (16/100)) = Strategy.leftFlank ∧
    Strategy.leftFlank ≠ Strategy.headOn := by
  have h : strategyVariant (16/100) = 33/100 := by
    norm_num [strategyVariant, pursuitOffsetX]
  refine ⟨h, by norm_num, ?_, by decide⟩
  rw [h]
  norm_num [strategyOf]

/-- C3 (amended). Each police agent owns a fixed scalar derived once at spawn
from a uniform sample `r ∈ [0,1)`; the scalar equals `r/2 + 1/4` and therefore
ranges over `[0.25, 0.75)` (not the full `[0,1)`); the partition thresholds
are exactly 0.33 and 0.66 (not 1/3 and 2/3): head-on blocker below 0.33, left
flank in `[0.33, 0.66)`, right flank at or above 0.66; and all three behaviors
are reachable from samples in `[0,1)`. -/
theorem C3_strategy_selection :
    (∀ r : ℚ, 0 ≤ r → r < 1 →
      strategyVariant r = r/2 + 1/4 ∧
      1/4 ≤ strategyVariant r ∧ strategyVariant r < 3/4) ∧
    (∀ v : ℚ,
      (v < 33/100 → strategyOf v = Strategy.headOn) ∧
      (33/100 ≤ v → v < 66/100 → strategyOf v = Strategy.leftFlank) ∧
      (66/100 ≤ v → strategyOf v = Strategy.rightFlank)) ∧
    ((0 : ℚ) ≤ 1/100 ∧ (1/100 : ℚ) < 1 ∧
      strategyOf (strategyVariant (1/100)) = Strategy.headOn) ∧
    ((0 : ℚ) ≤ 1/2 ∧ (1/2 : ℚ) < 1 ∧
      strategyOf (strategyVariant (1/2)) = Strategy.leftFlank) ∧
    ((0 : ℚ) ≤ 99/100 ∧ (99/100 : ℚ) < 1 ∧
      strategyOf (strategyVariant (99/100)) = Strategy.rightFlank) := by
  refine ⟨?_, ?_, ?_, ?_, ?_⟩
  · intro r h0 h1
    refine ⟨by unfold strategyVariant pursuitOffsetX; ring, ?_, ?_⟩
    · unfold strategyVariant pursuitOffsetX
      linarith
    · unfold strategyVariant pursuitOffsetX
      linarith
  · intro v
    refine ⟨?_, ?_, ?_⟩
    · intro h
      unfold strategyOf
      rw [if_pos h]
    · intro h1 h2
      unfold strategyOf
      rw [if_neg (by linarith), if_pos h2]
    · intro h
      unfold strategyOf
      rw [if_neg (by linarith), if_neg (by linarith)]
  · refine ⟨by norm_num, by norm_num, ?_⟩
    have h : strategyVariant (1/100) = 51/200 := by
      norm_num [strategyVariant, pursuitOffsetX]
    rw [h]
    norm_num [strategyOf]
  · refine ⟨by norm_num, by norm_num, ?_⟩
    have h : strategyVariant (1/2) = 1/2 := by
      norm_num [strategyVariant, pursuitOffsetX]
    rw [h]
    norm_num [strategyOf]
  · refine ⟨by norm_num, by norm_num, ?_⟩
    have h : strategyVariant (99/100) = 149/200 := by
      norm_num [strategyVariant, pursuitOffsetX]
    rw [h]
    norm_num [strategyOf]

/-- C3 witness: the amended theorem applied at the concrete sample `r = 0.4`
(scalar 0.45, left flank). -/
theorem C3_strategy_selection_witness :
    (strategyVariant (2/5) = (2/5 : ℚ)/2 + 1/4 ∧
      1/4 ≤ strategyVariant (2/5) ∧ strategyVariant (2/5) < 3/4) ∧
    strategyOf (9/20) = Strategy.leftFlank := by
  refine ⟨C3_strategy_selection.1 (2/5) (by norm_num) (by norm_num),
    (C3_strategy_selection.2.1 (9/20)).2.1 (by norm_num) (by norm_num)⟩

/-! ## C8: police heading normalization (EnemyChaser.js lines 353-362) -/

/-- The exact rational value of the IEEE-754 double `Math.PI`. -/
def piQ : ℚ := 884279719003555 / 281474976710656

theorem piQ_pos : 0 < piQ := by norm_num [piQ]

/-- The first while loop of the rotation smoothing:
`while (rotDiff > Math.PI) rotDiff -= Math.PI * 2`. -/
def wrapDown (x : ℚ) : ℚ :=
  if h : x > piQ then wrapDown (x - 2 * piQ) else x
termination_by (⌈(x - piQ) / (2 * piQ)⌉).toNat
decreasing_by
  have hp : (0 : ℚ) < piQ := piQ_pos
  have h2p : (0 : ℚ) < 2 * piQ := by linarith
  have key : (x - 2 * piQ - piQ) / (2 * piQ) = (x - piQ) / (2 * piQ) - 1 := by
    field_simp
    ring
  rw [key, Int.ceil_sub_one]
  have hpos : 0 < ⌈(x - piQ) / (2 * piQ)⌉ :=
    Int.ceil_pos.mpr (div_pos (by linarith) h2p)
  omega

/-- The second while loop of the rotation smoothing:
`while (rotDiff < -Math.PI) rotDiff += Math.PI * 2`. -/
def wrapUp (x : ℚ) : ℚ :=
  if h : x < -piQ then wrapUp (x + 2 * piQ) else x
termination_by (⌈(-piQ - x) / (2 * piQ)⌉).toNat
decreasing_by
  have hp : (0 : ℚ) < piQ := piQ_pos
  have h2p : (0 : ℚ) < 2 * piQ := by linarith
  have key : (-piQ - (x + 2 * piQ)) / (2 * piQ) = (-piQ - x) / (2 * piQ) - 1 := by
    field_simp
    ring
  rw [key, Int.ceil_sub_one]
  have hpos : 0 < ⌈(-piQ - x) / (2 * piQ)⌉ :=
    Int.ceil_pos.mpr (div_pos (by linarith) h2p)
  omega

/-- The two sequential while loops applied to the raw heading difference. -/
def normalizeRotDiff (x : ℚ) : ℚ := wrapUp (wrapDown x)

/-- The heading-smoothing step of `_updatePursuitAI`:
`this.rotation += rotDiff * config.ROTATION_SPEED` with `rotDiff` the
loop-normalized difference `targetRotation - rotation`. -/
def headingStep (rotation targetRotation : ℚ) : ℚ :=
  rotation + normalizeRotDiff (targetRotation - rotation) * ENEMY_ROTATION_SPEED

/-- The first loop ends at or below pi. -/
theorem wrapDown_le (x : ℚ) : wrapDown x ≤ piQ := by
  induction x using wrapDown.induct with
  | case1 x h ih =>
    rw [wrapDown, dif_pos h]
    exact ih
  | case2 x h =>
    rw [wrapDown, dif_neg h]
    exact le_of_not_lt h

/-- The second loop ends at or above negative pi. -/
theorem wrapUp_ge (x : ℚ) : -piQ ≤ wrapUp x := by
  induction x using wrapUp.induct with
  | case1 x h ih =>
    rw [wrapUp, dif_pos h]
    exact ih
  | case2 x h =>
    rw [wrapUp, dif_neg h]
    exact le_of_not_lt h

/-- The second loop preserves an at-or-below-pi upper bound. -/
theorem wrapUp_le (x : ℚ) (hx : x ≤ piQ) : wrapUp x ≤ piQ := by
  induction x using wrapUp.induct with
  | case1 x h ih =>
    rw [wrapUp, dif_pos h]
    have hp : (0 : ℚ) < piQ := piQ_pos
    exact ih (by linarith)
  | case2 x h =>
    rw [wrapUp, dif_neg h]
    exact hx

/-- The first loop changes its input by an integer multiple of `2 * piQ`. -/
theorem wrapDown_congruent (x : ℚ) : ∃ k : ℤ, wrapDown x = x + 2 * piQ * k := by
  induction x using wrapDown.induct with
  | case1 x h ih =>
    obtain ⟨k, hk⟩ := ih
    refine ⟨k - 1, ?_⟩
    rw [wrapDown, dif_pos h, hk]
    push_cast
    ring
  | case2 x h =>
    refine ⟨0, ?_⟩
    rw [wrapDown, dif_neg h]
    push_cast
    ring

/-- The second loop changes its input by an integer multiple of `2 * piQ`. -/
theorem wrapUp_congruent (x : ℚ) : ∃ k : ℤ, wrapUp x = x + 2 * piQ * k := by
  induction x using wrapUp.induct with
  | case1 x h ih =>
    obtain ⟨k, hk⟩ := ih
    refine ⟨k + 1, ?_⟩
    rw [wrapUp, dif_pos h, hk]
    push_cast
    ring
  | case2 x h =>
    refine ⟨0, ?_⟩
    rw [wrapUp, dif_neg h]
    push_cast
    ring

/-- C8 counterexample: a raw difference of exactly `-Math.PI` (for instance
heading `Math.PI` with target heading `0`) is left at `-Math.PI` by the two
while loops, so the normalized difference is NOT in the half-open interval
`(-pi, pi]` claimed by the spec: the loops land in the closed `[-pi, pi]`. -/
theorem C8_counterexample :
    normalizeRotDiff (0 - piQ) = -piQ ∧ ¬(-piQ < normalizeRotDiff (0 - piQ)) := by
  have h1 : (0 : ℚ) - piQ = -piQ := by ring
  have h2 : normalizeRotDiff (-piQ) = -piQ := by
    unfold normalizeRotDiff
    rw [wrapDown, dif_neg (by norm_num [piQ]), wrapUp,
      dif_neg (by norm_num [piQ])]
  rw [h1, h2]
  exact ⟨rfl, lt_irrefl _⟩

/-- C8 (amended). For every current and target heading the loop-normalized
difference lies in the closed interval `[-pi, pi]` (a difference of exactly
`-pi` is kept at `-pi` instead of being mapped to `+pi`), agrees with the raw
difference modulo `2*pi`, and is scaled by the rotation gain — so the agent
always turns along a shortest arc; in particular at heading `0.1` with target
`-3.0` the applied delta is the negative arc `-3.1 * 0.06`, not the longer
positive one. -/
theorem C8_heading_normalization :
    (∀ rotation targetRotation : ℚ,
      -piQ ≤ normalizeRotDiff (targetRotation - rotation) ∧
      normalizeRotDiff (targetRotation - rotation) ≤ piQ ∧
      (∃ k : ℤ, normalizeRotDiff (targetRotation - rotation) =
        (targetRotation - rotation) + 2 * piQ * k) ∧
      headingStep rotation targetRotation =
        rotation + normalizeRotDiff (targetRotation - rotation) *
          ENEMY_ROTATION_SPEED) ∧
    (normalizeRotDiff ((-3) - (1/10)) = -31/10 ∧
      headingStep (1/10) (-3) - (1/10) = (-31/10) * ENEMY_ROTATION_SPEED ∧
      headingStep (1/10) (-3) < 1/10) := by
  constructor
  · intro rotation targetRotation
    refine ⟨wrapUp_ge _, wrapUp_le _ (wrapDown_le _), ?_, rfl⟩
    obtain ⟨k1, hk1⟩ := wrapDown_congruent (targetRotation - rotation)
    obtain ⟨k2, hk2⟩ := wrapUp_congruent (wrapDown (targetRotation - rotation))
    refine ⟨k1 + k2, ?_⟩
    unfold normalizeRotDiff
    rw [hk2, hk1]
    push_cast
    ring
  · have h : normalizeRotDiff ((-3) - (1/10)) = -31/10 := by
      unfold normalizeRotDiff
      rw [wrapDown, dif_neg (by norm_num [piQ]), wrapUp,
        dif_neg (by norm_num [piQ])]
      norm_num
    refine ⟨h, ?_, ?_⟩
    · unfold headingStep
      rw [h]
      ring
    · unfold headingStep
      rw [h]
      norm_num [ENEMY_ROTATION_SPEED]

/-- C8 witness: the amended theorem applied at heading `2` targeting `-2`. -/
theorem C8_heading_normalization_witness :
    -piQ ≤ normalizeRotDiff ((-2) - 2) ∧
    normalizeRotDiff ((-2) - 2) ≤ piQ ∧
    (∃ k : ℤ, normalizeRotDiff ((-2) - 2) = ((-2) - 2) + 2 * piQ * k) ∧
    headingStep 2 (-2) =
      2 + normalizeRotDiff ((-2) - 2) * ENEMY_ROTATION_SPEED :=
  C8_heading_normalization.1 2 (-2)

/-! ## C1: containment ("trapped") detection
(CollisionSystem._checkPlayerTrapped, lines 718-837) -/

/-- A static building obstacle: center and `geometry.parameters` extents. -/
structure Building where
  centerX : ℚ
  centerZ : ℚ
  width : ℚ
  depth : ℚ
  height : ℚ
  deriving DecidableEq, Repr

/-- Squared planar distance.  The source compares `Math.sqrt d2 < r` with
`r ≥ 0`; by strict monotonicity of the square root this is embedded as
`d2 < r * r` throughout the trapped check. -/
def dist2 (ax az bx bz : ℚ) : ℚ := (ax - bx) ^ 2 + (az - bz) ^ 2

/-- The nearby-police filter: enemies with distance to the player below 10. -/
def closePoliceCount (playerPos : Vec2) (enemies : List Vec2) : Nat :=
  (enemies.filter (fun e =>
    decide (dist2 playerPos.x playerPos.z e.x e.z < 100))).length

/-- The 8 probe directions (cardinal plus diagonal, the diagonals using the
literal 0.707 of the source). -/
def trapDirs : List Vec2 :=
  [⟨1, 0⟩, ⟨-1, 0⟩, ⟨0, 1⟩, ⟨0, -1⟩,
    ⟨707/1000, 707/1000⟩, ⟨707/1000, -707/1000⟩,
    ⟨-707/1000, 707/1000⟩, ⟨-707/1000, -707/1000⟩]

/-- A probe point at the fixed test distance 5.0 from the player. -/
def probePos (playerPos d : Vec2) : Vec2 :=
  ⟨playerPos.x + d.x * 5, playerPos.z + d.z * 5⟩

/-- Whether a probe point lies within the police block radius 5.0 of any
enemy (checked first, with priority, in the source loop). -/
def probePoliceBlocked (t : Vec2) (enemies : List Vec2) : Bool :=
  enemies.any (fun e => decide (dist2 t.x t.z e.x e.z < 25))

/-- Whether a probe point lies inside some building footprint padded by the
player radius 2.5 (the source uses non-strict comparisons). -/
def probeBuildingBlocked (t : Vec2) (buildings : List Building) : Bool :=
  buildings.any (fun b =>
    decide (b.centerX - (b.width / 2 + 5/2) ≤ t.x) &&
    decide (t.x ≤ b.centerX + (b.width / 2 + 5/2)) &&
    decide (b.centerZ - (b.depth / 2 + 5/2) ≤ t.z) &&
    decide (t.z ≤ b.centerZ + (b.depth / 2 + 5/2)))

/-- Count of probe directions blocked by police or by a building. -/
def totalBlockedCount (playerPos : Vec2) (enemies : List Vec2)
    (buildings : List Building) : Nat :=
  (trapDirs.filter (fun d =>
    probePoliceBlocked (probePos playerPos d) enemies ||
      probeBuildingBlocked (probePos playerPos d) buildings)).length

/-- Count of probe directions blocked specifically by police. -/
def policeBlockedCount (playerPos : Vec2) (enemies : List Vec2) : Nat :=
  (trapDirs.filter (fun d =>
    probePoliceBlocked (probePos playerPos d) enemies)).length

/-- `_checkPlayerTrapped`, with the early-return structure of the source:
fewer than 3 close police aborts, fewer than 6 blocked or fewer than 4
police-blocked directions aborts, the close-police guard is rechecked, and
otherwise the player is declared trapped. -/
def checkPlayerTrapped (playerPos : Vec2) (enemies : List Vec2)
    (buildings : List Building) : Bool :=
  if closePoliceCount playerPos enemies < 3 then false
  else if totalBlockedCount playerPos enemies buildings < 6 ∨
      policeBlockedCount playerPos enemies < 4 then false
  else if closePoliceCount playerPos enemies < 3 then false
  else true

/-- Trapped holds exactly when all three thresholds are met. -/
theorem checkPlayerTrapped_iff (playerPos : Vec2) (enemies : List Vec2)
    (buildings : List Building) :
    checkPlayerTrapped playerPos enemies buildings = true ↔
      (3 ≤ closePoliceCount playerPos enemies ∧
        6 ≤ totalBlockedCount playerPos enemies buildings ∧
        4 ≤ policeBlockedCount playerPos enemies) := by
  unfold checkPlayerTrapped
  split_ifs with h1 h2
  · simp only [Bool.false_eq_true, false_iff]
    omega
  · simp only [Bool.false_eq_true, false_iff]
    omega
  · simp only [true_iff]
    omega

/-- Scenario with a single nearby police car and 7 of 8 directions blocked:
the police car sits at `(0, 9)` (blocking the north probe), six small
buildings sit on six other probe points, and the southwest probe is open. -/
def onePoliceEnemies : List Vec2 := [⟨0, 9⟩]

/-- The six buildings of the one-police scenario (width and depth 1). -/
def onePoliceBuildings : List Building :=
  [⟨5, 0, 1, 1, 10⟩, ⟨-5, 0, 1, 1, 10⟩, ⟨0, -5, 1, 1, 10⟩,
    ⟨707/200, 707/200, 1, 1, 10⟩, ⟨707/200, -707/200, 1, 1, 10⟩,
    ⟨-707/200, 707/200, 1, 1, 10⟩]

/-- Scenario with three nearby police cars blocking 6 of 8 directions (all
six police-caused), no buildings. -/
def threePoliceEnemies : List Vec2 := [⟨0, 5⟩, ⟨0, -5⟩, ⟨0, 9⟩]

/-- Evaluation of the one-police scenario: 1 close police, 7/8 blocked, and
no trapped verdict. -/
theorem onePolice_eval :
    closePoliceCount ⟨0, 0⟩ onePoliceEnemies = 1 ∧
    totalBlockedCount ⟨0, 0⟩ onePoliceEnemies onePoliceBuildings = 7 ∧
    checkPlayerTrapped ⟨0, 0⟩ onePoliceEnemies onePoliceBuildings = false := by
  refine ⟨?_, ?_, ?_⟩
  · norm_num [closePoliceCount, onePoliceEnemies, dist2, List.filter]
  · norm_num [totalBlockedCount, trapDirs, probePos, probePoliceBlocked,
      probeBuildingBlocked, dist2, onePoliceEnemies, onePoliceBuildings,
      List.filter, List.any]
  · norm_num [checkPlayerTrapped, closePoliceCount, onePoliceEnemies, dist2,
      List.filter]

/-- Evaluation of the three-police scenario: 3 close police, 6/8 blocked,
6 police-caused, trapped verdict. -/
theorem threePolice_eval :
    closePoliceCount ⟨0, 0⟩ threePoliceEnemies = 3 ∧
    totalBlockedCount ⟨0, 0⟩ threePoliceEnemies [] = 6 ∧
    policeBlockedCount ⟨0, 0⟩ threePoliceEnemies = 6 ∧
    checkPlayerTrapped ⟨0, 0⟩ threePoliceEnemies [] = true := by
  have h1 : closePoliceCount ⟨0, 0⟩ threePoliceEnemies = 3 := by
    norm_num [closePoliceCount, threePoliceEnemies, dist2, List.filter]
  have h2 : totalBlockedCount ⟨0, 0⟩ threePoliceEnemies [] = 6 := by
    norm_num [totalBlockedCount, trapDirs, probePos, probePoliceBlocked,
      probeBuildingBlocked, dist2, threePoliceEnemies, List.filter, List.any]
  have h3 : policeBlockedCount ⟨0, 0⟩ threePoliceEnemies = 6 := by
    norm_num [policeBlockedCount, trapDirs, probePos, probePoliceBlocked,
      dist2, threePoliceEnemies, List.filter, List.any]
  refine ⟨h1, h2, h3, ?_⟩
  rw [checkPlayerTrapped_iff, h1, h2, h3]
  omega

/-- C1. Containment detection: the player is declared trapped exactly when at
least 3 police are within the close radius, at least 6 of the 8 directional
probes are blocked, and at least 4 of the blocked probes are police-caused;
in particular a scenario with 1 nearby police and 7/8 blocked directions is
not trapped, while a scenario with 3 nearby police, 6/8 blocked and at least
4 police-caused is trapped. -/
theorem C1_containment_detection :
    (∀ (playerPos : Vec2) (enemies : List Vec2) (buildings : List Building),
      checkPlayerTrapped playerPos enemies buildings = true ↔
        (3 ≤ closePoliceCount playerPos enemies ∧
          6 ≤ totalBlockedCount playerPos enemies buildings ∧
          4 ≤ policeBlockedCount playerPos enemies)) ∧
    (closePoliceCount ⟨0, 0⟩ onePoliceEnemies = 1 ∧
      totalBlockedCount ⟨0, 0⟩ onePoliceEnemies onePoliceBuildings = 7 ∧
      checkPlayerTrapped ⟨0, 0⟩ onePoliceEnemies onePoliceBuildings = false) ∧
    (closePoliceCount ⟨0, 0⟩ threePoliceEnemies = 3 ∧
      totalBlockedCount ⟨0, 0⟩ threePoliceEnemies [] = 6 ∧
      4 ≤ policeBlockedCount ⟨0, 0⟩ threePoliceEnemies ∧
      checkPlayerTrapped ⟨0, 0⟩ threePoliceEnemies [] = true) := by
  refine ⟨checkPlayerTrapped_iff, onePolice_eval, ?_⟩
  obtain ⟨h1, h2, h3, h4⟩ := threePolice_eval
  exact ⟨h1, h2, by omega, h4⟩

/-- C1 witness: the characterization applied concretely, deriving the trapped
verdict of the three-police scenario from its counts. -/
theorem C1_containment_detection_witness :
    checkPlayerTrapped ⟨0, 0⟩ threePoliceEnemies [] = true := by
  refine (C1_containment_detection.1 ⟨0, 0⟩ threePoliceEnemies []).mpr ?_
  obtain ⟨h1, h2, h3, _⟩ := C1_containment_detection.2.2
  exact ⟨by omega, by omega, h3⟩

/-! ## Collision resolution (CollisionSystem.js lines 496-711, 844-1031) -/

/-- A duck-typed vehicle body as seen by `_resolveVehiclePair`: position, an
optional velocity vector, an optional scalar speed, and the half extents of
its axis-aligned bounding box (including any per-class padding applied by the
object's own `getBoundingBox`). -/
structure Body where
  pos : Vec2
  vel : Option Vec2
  speed : Option ℚ
  halfW : ℚ
  halfL : ℚ
  deriving DecidableEq, Repr

/-- The bounding box of a body (x/z components of `getBoundingBox`). -/
def bodyBox (b : Body) : Box :=
  ⟨b.pos.x - b.halfW, b.pos.z - b.halfL, b.pos.x + b.halfW, b.pos.z + b.halfL⟩

/-- JavaScript `Math.sign` on numbers. -/
def signQ (x : ℚ) : ℚ := if 0 < x then 1 else if x < 0 then -1 else 0

/-- The JavaScript `v || d` fallback on numbers: `d` when `v` is `0`. -/
def jsOr (v d : ℚ) : ℚ := if v = 0 then d else v

/-- `CollisionSystem._computeMTV2D`: overlap extents on x and z, `null` when
either is not positive, otherwise the least-penetration axis with the sign
determined by the center-to-center direction. -/
def computeMTV2D (a b : Box) : Option Vec2 :=
  let overlapX := min a.maxX b.maxX - max a.minX b.minX
  let overlapZ := min a.maxZ b.maxZ - max a.minZ b.minZ
  if overlapX ≤ 0 ∨ overlapZ ≤ 0 then none
  else
    let centerAx := (a.minX + a.maxX) / 2
    let centerAz := (a.minZ + a.maxZ) / 2
    let centerBx := (b.minX + b.maxX) / 2
    let centerBz := (b.minZ + b.maxZ) / 2
    if overlapX < overlapZ then
      some ⟨(if centerAx < centerBx then -1 else 1) * overlapX, 0⟩
    else
      some ⟨0, (if centerAz < centerBz then -1 else 1) * overlapZ⟩

/-- The per-pair tuning options of `_resolveVehiclePair` (source defaults:
elasticity 0.4, friction 0.6, unit masses, minSeparation 0.25,
pushStrength 1.5). -/
structure ResolveOptions where
  elasticity : ℚ
  friction : ℚ
  massA : ℚ
  massB : ℚ
  minSeparation : ℚ
  pushStrength : ℚ
  deriving DecidableEq, Repr

/-- The collision normal derived from the MTV
(`mtv.x !== 0 ? Math.sign(mtv.x) : 0`, likewise for z). -/
def mtvNormal (mtv : Vec2) : Vec2 :=
  ⟨if mtv.x ≠ 0 then signQ mtv.x else 0, if mtv.z ≠ 0 then signQ mtv.z else 0⟩

/-- The impulse application of the both-velocity branch: equal and opposite
impulses, each scaled by the other body's mass. -/
def applyImpulsePair (o : ResolveOptions) (n va vb : Vec2) (j : ℚ) :
    Vec2 × Vec2 :=
  (⟨va.x + j * n.x * o.massB, va.z + j * n.z * o.massB⟩,
    ⟨vb.x - j * n.x * o.massA, vb.z - j * n.z * o.massA⟩)

/-- The per-component tangential friction mutation of the both-velocity
branch (`v.x += tangentX * v.x * (1 - friction)`, likewise for z, with
tangent `(-n.z, n.x)`). -/
def applyTangentFriction (o : ResolveOptions) (n v : Vec2) : Vec2 :=
  ⟨v.x + (-n.z) * v.x * (1 - o.friction), v.z + n.x * v.z * (1 - o.friction)⟩

/-- The both-velocity branch of `_resolveVehiclePair`: skip when separating
(`relVelAlongNormal > 0`), otherwise apply the impulse
`j = -(1+elasticity)*relVelAlongNormal/totalMass` and then the tangential
friction mutation. -/
def resolveBothVelocities (o : ResolveOptions) (mtv va vb : Vec2) :
    Vec2 × Vec2 :=
  let n := mtvNormal mtv
  let relVelAlongNormal := (va.x - vb.x) * n.x + (va.z - vb.z) * n.z
  if 0 < relVelAlongNormal then (va, vb)
  else
    let j := (-(1 + o.elasticity) * relVelAlongNormal) / (o.massA + o.massB)
    let pair := applyImpulsePair o n va vb j
    (applyTangentFriction o n pair.1, applyTangentFriction o n pair.2)

/-- The single-velocity branch of `_resolveVehiclePair` (body with velocity
reflects it scaled by elasticity; a speed-carrying partner gains clamped
scalar speed).  `impactStrength` is the square root of the squared velocity,
taken from the `JSMath` abstraction. -/
def resolveSingleVelocity (M : JSMath) (o : ResolveOptions) (n : Vec2)
    (v : Vec2) (otherSpeed : Option ℚ) : Vec2 × Option ℚ :=
  let impactStrength := M.sqrt (v.x ^ 2 + v.z ^ 2)
  let vNew : Vec2 :=
    ⟨v.x * (1 - o.elasticity) - n.x * impactStrength * o.elasticity,
      v.z * (1 - o.elasticity) - n.z * impactStrength * o.elasticity⟩
  let sNew := otherSpeed.map (fun s =>
    clamp (s + impactStrength * (3/10)) 4 (s * (3/2)))
  (vNew, sNew)

/-- `CollisionSystem._resolveVehiclePair`: returns whether the pair
overlapped, together with the updated bodies.  Follows the source order:
MTV, mass-weighted position correction with the `Math.sign(move || 1)`
separation buffer, then the velocity-transfer branch selected by which bodies
carry a velocity. -/
def resolveVehiclePair (M : JSMath) (o : ResolveOptions) (a b : Body) :
    Bool × Body × Body :=
  match computeMTV2D (bodyBox a) (bodyBox b) with
  | none => (false, a, b)
  | some mtv =>
    let totalMass := o.massA + o.massB
    let moveAx := -(mtv.x * (o.massB / totalMass)) * o.pushStrength
    let moveAz := -(mtv.z * (o.massB / totalMass)) * o.pushStrength
    let moveBx := mtv.x * (o.massA / totalMass) * o.pushStrength
    let moveBz := mtv.z * (o.massA / totalMass) * o.pushStrength
    let a1 : Body := { a with
      pos := ⟨a.pos.x + moveAx + signQ (jsOr moveAx 1) * o.minSeparation,
        a.pos.z + moveAz + signQ (jsOr moveAz 1) * o.minSeparation⟩ }
    let b1 : Body := { b with
      pos := ⟨b.pos.x + moveBx + signQ (jsOr moveBx 1) * o.minSeparation,
        b.pos.z + moveBz + signQ (jsOr moveBz 1) * o.minSeparation⟩ }
    match a.vel, b.vel with
    | some va, some vb =>
      let pair := resolveBothVelocities o mtv va vb
      (true, { a1 with vel := some pair.1 }, { b1 with vel := some pair.2 })
    | some va, none =>
      let n := mtvNormal mtv
      let pair := resolveSingleVelocity M o n va b1.speed
      (true, { a1 with vel := some pair.1 }, { b1 with speed := pair.2 })
    | none, some vb =>
      let n : Vec2 := ⟨-(mtvNormal mtv).x, -(mtvNormal mtv).z⟩
      let pair := resolveSingleVelocity M o n vb a1.speed
      (true, { a1 with speed := pair.2 }, { b1 with vel := some pair.1 })
    | none, none =>
      let a2 : Body := { a1 with
        speed := a1.speed.map (fun s => clamp (s * o.friction) 4 s) }
      let b2 : Body := { b1 with
        speed := b1.speed.map (fun s => clamp (s * o.friction) 4 s) }
      (true, a2, b2)

/-! ## Player-police separation (CollisionSystem._enforcePlayerPoliceSeparation) -/

/-- Membership of a point in a building footprint expanded by `buffer`
(the inline checks of `_enforcePlayerPoliceSeparation`, which use the raw
`width/2`, `depth/2` plus an explicit buffer, with non-strict comparisons). -/
def insideBuildingBuffer (x z buffer : ℚ) (b : Building) : Bool :=
  decide (b.centerX - b.width / 2 - buffer ≤ x) &&
  decide (x ≤ b.centerX + b.width / 2 + buffer) &&
  decide (b.centerZ - b.depth / 2 - buffer ≤ z) &&
  decide (z ≤ b.centerZ + b.depth / 2 + buffer)

/-- The per-enemy work of one separation pass: the proactive push when the
center distance is below the minimum safe distance 5.5 (with the
building-aware safe mode: perpendicular slide, minimal nudge, velocity and
speed damping, stronger enemy push), followed by the AABB-gated
impulse resolution with building-aware tuning.  `playerPosStale` is the
position snapshot taken once at the top of the enclosing function, and
`passPlayerBox` the player bounding box taken at the top of the pass, exactly
as in the source.  Distance comparisons (`dist < 5.5`, `dist > 0.01`) are
embedded as comparisons of squares; the square root itself is used only for
the normalization quotient, through the `JSMath` abstraction. -/
def sepPassStep (M : JSMath) (buildings : List Building)
    (playerPosStale : Vec2) (passPlayerBox : Box) (player enemy : Body) :
    Body × Body :=
  let enemyPos := enemy.pos
  let enemyBox := bodyBox enemy
  let dx := playerPosStale.x - enemyPos.x
  let dz := playerPosStale.z - enemyPos.z
  let d2 := dx * dx + dz * dz
  let pair1 : Body × Body :=
    if d2 < (11/2) ^ 2 then
      let dist := M.sqrt d2
      let overlap := 11/2 - dist
      let nx := if (1/100 : ℚ) ^ 2 < d2 then dx / dist else 1
      let nz := if (1/100 : ℚ) ^ 2 < d2 then dz / dist else 0
      let baseSeparationForce := overlap * (5/2)
      let proposedPlayerX := playerPosStale.x + nx * baseSeparationForce * (13/20)
      let proposedPlayerZ := playerPosStale.z + nz * baseSeparationForce * (13/20)
      let wouldHitBuilding :=
        buildings.any (insideBuildingBuffer proposedPlayerX proposedPlayerZ 3)
      if wouldHitBuilding then
        let perpX1 := -nz
        let perpZ1 := nx
        let perpX2 := nz
        let perpZ2 := -nx
        let canSlide1 := !(buildings.any (insideBuildingBuffer
          (playerPosStale.x + perpX1 * (3/2)) (playerPosStale.z + perpZ1 * (3/2)) 3))
        let canSlide2 := !(buildings.any (insideBuildingBuffer
          (playerPosStale.x + perpX2 * (3/2)) (playerPosStale.z + perpZ2 * (3/2)) 3))
        let p1 : Body :=
          if canSlide1 then
            { player with pos := ⟨player.pos.x + perpX1 * (3/10),
              player.pos.z + perpZ1 * (3/10)⟩ }
          else if canSlide2 then
            { player with pos := ⟨player.pos.x + perpX2 * (3/10),
              player.pos.z + perpZ2 * (3/10)⟩ }
          else player
        let minimalForce := min (baseSeparationForce * (3/20)) (4/5)
        let p2 : Body := { p1 with pos := ⟨p1.pos.x + nx * minimalForce,
          p1.pos.z + nz * minimalForce⟩ }
        let p3 : Body := { p2 with
          vel := p2.vel.map (fun v => ⟨v.x * (1/2), v.z * (1/2)⟩),
          speed := p2.speed.map (fun s => if s = 0 then s else s * (7/10)) }
        let e1 : Body := { enemy with
          pos := ⟨enemy.pos.x - nx * baseSeparationForce * (3/5),
            enemy.pos.z - nz * baseSeparationForce * (3/5)⟩ }
        (p3, e1)
      else
        let pN : Body := { player with
          pos := ⟨proposedPlayerX, proposedPlayerZ⟩ }
        let eN : Body := { enemy with
          pos := ⟨enemy.pos.x - nx * baseSeparationForce * (7/20),
            enemy.pos.z - nz * baseSeparationForce * (7/20)⟩ }
        (pN, eN)
    else (player, enemy)
  if checkAABBCollision passPlayerBox enemyBox then
    let nearBuilding := buildings.any
      (insideBuildingBuffer playerPosStale.x playerPosStale.z (9/2))
    let o : ResolveOptions :=
      if nearBuilding then ⟨3/10, 7/10, 1, 9/5, 2/5, 2⟩
      else ⟨1/2, 1/2, 1, 9/5, 3/5, 7/2⟩
    let r := resolveVehiclePair M o pair1.1 pair1.2
    (r.2.1, r.2.2)
  else pair1

/-- One pass of the separation loop over all enemies (the player bounding box
is read once at the top of the pass, exactly as in the source). -/
def sepPass (M : JSMath) (buildings : List Building) (playerPosStale : Vec2)
    (player : Body) (enemies : List Body) : Body × List Body :=
  let passPlayerBox := bodyBox player
  enemies.foldl
    (fun acc enemy =>
      let r := sepPassStep M buildings playerPosStale passPlayerBox acc.1 enemy
      (r.1, acc.2 ++ [r.2]))
    (player, [])

/-- `CollisionSystem._enforcePlayerPoliceSeparation`: an early return when no
enemies exist, one position snapshot of the player, then two passes. -/
def enforcePlayerPoliceSeparation (M : JSMath) (player : Body)
    (enemies : List Body) (buildings : List Building) : Body × List Body :=
  if enemies.isEmpty then (player, enemies)
  else
    let playerPosStale := player.pos
    let r1 := sepPass M buildings playerPosStale player enemies
    sepPass M buildings playerPosStale r1.1 r1.2

/-! ## C5: idempotence on separated pairs -/

/-- Disjoint bounding boxes have no minimum translation vector. -/
theorem checkAABB_false_mtv (a b : Box)
    (h : checkAABBCollision a b = false) : computeMTV2D a b = none := by
  unfold checkAABBCollision at h
  simp only [Bool.and_eq_false_iff, decide_eq_false_iff_not, not_lt] at h
  unfold computeMTV2D
  rw [if_pos]
  rcases h with ((h | h) | h) | h
  · left
    have h1 : min a.maxX b.maxX ≤ b.maxX := min_le_right _ _
    have h2 : a.minX ≤ max a.minX b.minX := le_max_left _ _
    linarith
  · left
    have h1 : min a.maxX b.maxX ≤ a.maxX := min_le_left _ _
    have h2 : b.minX ≤ max a.minX b.minX := le_max_right _ _
    linarith
  · right
    have h1 : min a.maxZ b.maxZ ≤ b.maxZ := min_le_right _ _
    have h2 : a.minZ ≤ max a.minZ b.minZ := le_max_left _ _
    linarith
  · right
    have h1 : min a.maxZ b.maxZ ≤ a.maxZ := min_le_left _ _
    have h2 : b.minZ ≤ max a.minZ b.minZ := le_max_right _ _
    linarith

/-- `_resolveVehiclePair` is a no-op (and reports no collision) on a pair
whose bounding boxes do not overlap, for every tuning configuration. -/
theorem resolveVehiclePair_noop (M : JSMath) (o : ResolveOptions) (a b : Body)
    (h : checkAABBCollision (bodyBox a) (bodyBox b) = false) :
    resolveVehiclePair M o a b = (false, a, b) := by
  unfold resolveVehiclePair
  rw [checkAABB_false_mtv _ _ h]

/-- One per-enemy separation step is a no-op when the center distance is at
least 5.5 and the bounding boxes do not overlap. -/
theorem sepPassStep_noop (M : JSMath) (buildings : List Building)
    (playerPosStale : Vec2) (passPlayerBox : Box) (player enemy : Body)
    (hd : ¬((playerPosStale.x - enemy.pos.x) * (playerPosStale.x - enemy.pos.x) +
      (playerPosStale.z - enemy.pos.z) * (playerPosStale.z - enemy.pos.z) <
        (11/2) ^ 2))
    (hb : checkAABBCollision passPlayerBox (bodyBox enemy) = false) :
    sepPassStep M buildings playerPosStale passPlayerBox player enemy =
      (player, enemy) := by
  simp only [sepPassStep]
  rw [if_neg hd]
  simp only [hb, Bool.false_eq_true, if_false]

/-- A full separation pass is a no-op when every enemy is far enough and
box-disjoint from the player. -/
theorem sepPass_noop (M : JSMath) (buildings : List Building)
    (playerPosStale : Vec2) (player : Body) (enemies : List Body)
    (h : ∀ e ∈ enemies,
      ¬((playerPosStale.x - e.pos.x) * (playerPosStale.x - e.pos.x) +
        (playerPosStale.z - e.pos.z) * (playerPosStale.z - e.pos.z) <
          (11/2) ^ 2) ∧
      checkAABBCollision (bodyBox player) (bodyBox e) = false) :
    sepPass M buildings playerPosStale player enemies = (player, enemies) := by
  unfold sepPass
  suffices haux : ∀ (l : List Body) (done : List Body),
      (∀ e ∈ l,
        ¬((playerPosStale.x - e.pos.x) * (playerPosStale.x - e.pos.x) +
          (playerPosStale.z - e.pos.z) * (playerPosStale.z - e.pos.z) <
            (11/2) ^ 2) ∧
        checkAABBCollision (bodyBox player) (bodyBox e) = false) →
      l.foldl
        (fun acc enemy =>
          let r := sepPassStep M buildings playerPosStale (bodyBox player)
            acc.1 enemy
          (r.1, acc.2 ++ [r.2]))
        (player, done) = (player, done ++ l) by
    have := haux enemies [] h
    simpa using this
  intro l
  induction l with
  | nil =>
    intro done _
    simp
  | cons e rest ih =>
    intro done hall
    obtain ⟨he, hrest⟩ : (¬((playerPosStale.x - e.pos.x) *
        (playerPosStale.x - e.pos.x) +
        (playerPosStale.z - e.pos.z) * (playerPosStale.z - e.pos.z) <
          (11/2) ^ 2) ∧
        checkAABBCollision (bodyBox player) (bodyBox e) = false) ∧
        ∀ x ∈ rest, _ := ⟨hall e (List.mem_cons_self e rest),
          fun x hx => hall x (List.mem_cons_of_mem e hx)⟩
    simp only [List.foldl_cons]
    rw [sepPassStep_noop M buildings playerPosStale (bodyBox player) player e
      he.1 he.2]
    have := ih (done ++ [e]) hrest
    simpa using this

/-- C5 (amended). Running `_resolveVehiclePair` on a pair whose bounding
boxes do not overlap is a no-op for every pair category (any tuning options):
neither body's position, velocity, nor scalar speed changes, so a second run
changes nothing either.  The per-tick player-police separation step, however,
is proactive: it is a no-op only when every enemy is additionally at center
distance of at least 5.5 from the player; under that condition the whole
two-pass step returns the player and every enemy unchanged. -/
theorem C5_idempotent_resolution :
    (∀ (M : JSMath) (o : ResolveOptions) (a b : Body),
      checkAABBCollision (bodyBox a) (bodyBox b) = false →
      resolveVehiclePair M o a b = (false, a, b)) ∧
    (∀ (M : JSMath) (player : Body) (enemies : List Body)
      (buildings : List Building),
      (∀ e ∈ enemies,
        ¬(dist2 player.pos.x player.pos.z e.pos.x e.pos.z < (11/2) ^ 2) ∧
        checkAABBCollision (bodyBox player) (bodyBox e) = false) →
      enforcePlayerPoliceSeparation M player enemies buildings =
        (player, enemies)) := by
  refine ⟨resolveVehiclePair_noop, ?_⟩
  intro M player enemies buildings h
  have h2 : ∀ e ∈ enemies,
      ¬((player.pos.x - e.pos.x) * (player.pos.x - e.pos.x) +
        (player.pos.z - e.pos.z) * (player.pos.z - e.pos.z) < (11/2) ^ 2) ∧
      checkAABBCollision (bodyBox player) (bodyBox e) = false := by
    intro e he
    obtain ⟨hd, hb⟩ := h e he
    refine ⟨?_, hb⟩
    have : dist2 player.pos.x player.pos.z e.pos.x e.pos.z =
        (player.pos.x - e.pos.x) * (player.pos.x - e.pos.x) +
        (player.pos.z - e.pos.z) * (player.pos.z - e.pos.z) := by
      unfold dist2
      ring
    rw [← this]
    exact hd
  unfold enforcePlayerPoliceSeparation
  split_ifs with hempty
  · rfl
  · show sepPass M buildings player.pos
        (sepPass M buildings player.pos player enemies).1
        (sepPass M buildings player.pos player enemies).2 = (player, enemies)
    rw [sepPass_noop M buildings player.pos player enemies h2]
    exact sepPass_noop M buildings player.pos player enemies h2

/-- Concrete player body: at the origin, stationary, with the padded
player-car half extents (`PLAYER_CONFIG` 2 x 3.5 plus padding 0.5). -/
def sepPlayerCE : Body := ⟨⟨0, 0⟩, some ⟨0, 0⟩, some 0, 3/2, 9/4⟩

/-- Concrete police body far from the player (center distance 20). -/
def sepEnemyFar : Body := ⟨⟨20, 0⟩, some ⟨0, 0⟩, some 18, 8/5, 5/2⟩

/-- Concrete police body at center distance 5 from the player: bounding boxes
are disjoint, yet the distance is below the minimum safe distance 5.5. -/
def sepEnemyCE : Body := ⟨⟨5, 0⟩, some ⟨0, 0⟩, some 18, 8/5, 5/2⟩

/-- A `Math` instance whose square root is exact on the two squared distances
arising in the separation counterexample (`25` and `7569/256`). -/
def M5 : JSMath :=
  ⟨fun q => if q = 25 then 5 else if q = 7569/256 then 87/16 else 0,
    fun _ => 0, fun _ => 0⟩

/-- C5 witness: the no-op facts applied at a separated concrete pair
(center distance 20, boxes disjoint), using the source default options. -/
theorem C5_idempotent_resolution_witness :
    resolveVehiclePair M0 ⟨2/5, 3/5, 1, 1, 1/4, 3/2⟩ sepPlayerCE sepEnemyFar =
      (false, sepPlayerCE, sepEnemyFar) ∧
    enforcePlayerPoliceSeparation M0 sepPlayerCE [sepEnemyFar] [] =
      (sepPlayerCE, [sepEnemyFar]) := by
  constructor
  · apply C5_idempotent_resolution.1
    norm_num [checkAABBCollision, bodyBox, sepPlayerCE, sepEnemyFar]
  · apply C5_idempotent_resolution.2
    intro e he
    simp only [List.mem_singleton] at he
    subst he
    constructor
    · norm_num [dist2, sepPlayerCE, sepEnemyFar]
    · norm_num [checkAABBCollision, bodyBox, sepPlayerCE, sepEnemyFar]

/-- C5 counterexample: a player-police pair whose bounding boxes do NOT
overlap (player at the origin, police at `(5, 0)`) is still moved by the
per-tick separation step, because that step fires on center distance below
5.5 rather than on box overlap: the two passes leave the player at
`(-13/128, 0)`, not at the origin.  The `M5.sqrt` values used are exact. -/
theorem C5_counterexample :
    checkAABBCollision (bodyBox sepPlayerCE) (bodyBox sepEnemyCE) = false ∧
    M5.sqrt 25 = 5 ∧ (5 : ℚ) ^ 2 = 25 ∧
    M5.sqrt (7569/256) = 87/16 ∧ ((87/16 : ℚ)) ^ 2 = 7569/256 ∧
    (enforcePlayerPoliceSeparation M5 sepPlayerCE [sepEnemyCE] []).1.pos =
      ⟨-13/128, 0⟩ ∧
    (⟨-13/128, 0⟩ : Vec2) ≠ sepPlayerCE.pos := by
  refine ⟨?_, by norm_num [M5], by norm_num, by norm_num [M5], by norm_num,
    ?_, ?_⟩
  · norm_num [checkAABBCollision, bodyBox, sepPlayerCE, sepEnemyCE]
  · norm_num [enforcePlayerPoliceSeparation, sepPass, sepPassStep, bodyBox,
      checkAABBCollision, M5, sepPlayerCE, sepEnemyCE, List.foldl_cons,
      List.foldl_nil, List.any_nil, List.isEmpty_cons]
  · simp only [sepPlayerCE, ne_eq, Vec2.mk.injEq]
    norm_num

/-! ## C4: impulse symmetry -/

/-- An MTV produced by `_computeMTV2D` lies on exactly one axis. -/
theorem computeMTV2D_axis (a b : Box) (mtv : Vec2)
    (h : computeMTV2D a b = some mtv) :
    (mtv.x ≠ 0 ∧ mtv.z = 0) ∨ (mtv.x = 0 ∧ mtv.z ≠ 0) := by
  simp only [computeMTV2D] at h
  split_ifs at h with h1 h2 h3 h4
  all_goals push_neg at h1
  all_goals (obtain ⟨h1x, h1z⟩ := h1)
  all_goals simp only [Option.some.injEq] at h
  all_goals subst h
  · left
    constructor
    · simp only [ne_eq]
      intro habs
      simp at habs
      linarith
    · rfl
  · left
    constructor
    · simp only [ne_eq]
      intro habs
      simp at habs
      linarith
    · rfl
  · right
    constructor
    · rfl
    · simp only [ne_eq]
      intro habs
      simp at habs
      linarith
  · right
    constructor
    · rfl
    · simp only [ne_eq]
      intro habs
      simp at habs
      linarith

/-- On an axis MTV, the collision normal has a unit component on that axis
and zero on the other. -/
theorem mtvNormal_cases (mtv : Vec2)
    (haxis : (mtv.x ≠ 0 ∧ mtv.z = 0) ∨ (mtv.x = 0 ∧ mtv.z ≠ 0)) :
    mtvNormal mtv = ⟨1, 0⟩ ∨ mtvNormal mtv = ⟨-1, 0⟩ ∨
    mtvNormal mtv = ⟨0, 1⟩ ∨ mtvNormal mtv = ⟨0, -1⟩ := by
  unfold mtvNormal signQ
  rcases haxis with ⟨hx, hz⟩ | ⟨hx, hz⟩
  · rcases lt_trichotomy 0 mtv.x with h | h | h
    · left
      simp [hx, hz, h]
    · exact absurd h.symm hx
    · right; left
      simp [hx, hz, h, not_lt.mpr (le_of_lt h), asymm h]
  · rcases lt_trichotomy 0 mtv.z with h | h | h
    · right; right; left
      simp [hx, hz, h]
    · exact absurd h.symm hz
    · right; right; right
      simp [hx, hz, h, not_lt.mpr (le_of_lt h), asymm h]

/-- The both-velocity resolution swaps the velocities exactly when the pair
has equal masses, elasticity 1, a stationary second body, an approaching
relative velocity, and a moving-body velocity parallel to the collision
normal. -/
theorem resolveBoth_swap (o : ResolveOptions) (mtv va : Vec2) (m : ℚ)
    (he : o.elasticity = 1) (hma : o.massA = m) (hmb : o.massB = m)
    (hm : 0 < m)
    (haxis : (mtv.x ≠ 0 ∧ mtv.z = 0) ∨ (mtv.x = 0 ∧ mtv.z ≠ 0))
    (hparx : va.x * (mtvNormal mtv).z = 0)
    (hparz : va.z * (mtvNormal mtv).x = 0)
    (happ : va.x * (mtvNormal mtv).x + va.z * (mtvNormal mtv).z ≤ 0) :
    resolveBothVelocities o mtv va ⟨0, 0⟩ = (⟨0, 0⟩, va) := by
  obtain ⟨vax, vaz⟩ := va
  have hm0 : m ≠ 0 := ne_of_gt hm
  rcases mtvNormal_cases mtv haxis with hn | hn | hn | hn
  · rw [hn] at hparx hparz happ
    norm_num at hparx hparz happ
    subst hparz
    simp only [resolveBothVelocities, applyImpulsePair, applyTangentFriction,
      hn, he, hma, hmb]
    split_ifs with hcond
    · exfalso
      norm_num at hcond
      linarith
    · simp only [Prod.mk.injEq, Vec2.mk.injEq]
      norm_num
      constructor <;> (field_simp; try ring)
  · rw [hn] at hparx hparz happ
    norm_num at hparx hparz happ
    subst hparz
    simp only [resolveBothVelocities, applyImpulsePair, applyTangentFriction,
      hn, he, hma, hmb]
    split_ifs with hcond
    · exfalso
      norm_num at hcond
      linarith
    · simp only [Prod.mk.injEq, Vec2.mk.injEq]
      norm_num
      constructor <;> (field_simp; try ring)
  · rw [hn] at hparx hparz happ
    norm_num at hparx hparz happ
    subst hparx
    simp only [resolveBothVelocities, applyImpulsePair, applyTangentFriction,
      hn, he, hma, hmb]
    split_ifs with hcond
    · exfalso
      norm_num at hcond
      linarith
    · simp only [Prod.mk.injEq, Vec2.mk.injEq]
      norm_num
      constructor <;> (field_simp; try ring)
  · rw [hn] at hparx hparz happ
    norm_num at hparx hparz happ
    subst hparx
    simp only [resolveBothVelocities, applyImpulsePair, applyTangentFriction,
      hn, he, hma, hmb]
    split_ifs with hcond
    · exfalso
      norm_num at hcond
      linarith
    · simp only [Prod.mk.injEq, Vec2.mk.injEq]
      norm_num
      constructor <;> (field_simp; try ring)

/-- C4 (amended). For any approaching both-velocity pair the resolution
applies the impulse `j = -(1+elasticity)*relVelAlongNormal/totalMass` with
opposite signs, each scaled by the other body's mass, followed by the
tangential friction mutation; and when additionally elasticity is 1, the
masses are equal and positive, the second body is stationary, and the moving
body's velocity is parallel to the collision normal, the post-collision
velocities are swapped exactly. -/
theorem C4_impulse_symmetry :
    (∀ (o : ResolveOptions) (mtv va vb : Vec2),
      ¬(0 < (va.x - vb.x) * (mtvNormal mtv).x +
          (va.z - vb.z) * (mtvNormal mtv).z) →
      resolveBothVelocities o mtv va vb =
        (applyTangentFriction o (mtvNormal mtv)
          (applyImpulsePair o (mtvNormal mtv) va vb
            ((-(1 + o.elasticity) *
              ((va.x - vb.x) * (mtvNormal mtv).x +
                (va.z - vb.z) * (mtvNormal mtv).z)) /
              (o.massA + o.massB))).1,
          applyTangentFriction o (mtvNormal mtv)
            (applyImpulsePair o (mtvNormal mtv) va vb
              ((-(1 + o.elasticity) *
                ((va.x - vb.x) * (mtvNormal mtv).x +
                  (va.z - vb.z) * (mtvNormal mtv).z)) /
                (o.massA + o.massB))).2)) ∧
    (∀ (M : JSMath) (o : ResolveOptions) (a b : Body) (va : Vec2) (m : ℚ)
      (mtv : Vec2),
      o.elasticity = 1 → o.massA = m → o.massB = m → 0 < m →
      a.vel = some va → b.vel = some ⟨0, 0⟩ →
      computeMTV2D (bodyBox a) (bodyBox b) = some mtv →
      va.x * (mtvNormal mtv).z = 0 → va.z * (mtvNormal mtv).x = 0 →
      va.x * (mtvNormal mtv).x + va.z * (mtvNormal mtv).z ≤ 0 →
      (resolveVehiclePair M o a b).2.1.vel = some ⟨0, 0⟩ ∧
      (resolveVehiclePair M o a b).2.2.vel = some va) := by
  constructor
  · intro o mtv va vb hsep
    simp only [resolveBothVelocities]
    rw [if_neg hsep]
  · intro M o a b va m mtv he hma hmb hm ha hb hmtv hparx hparz happ
    have hswap := resolveBoth_swap o mtv va m he hma hmb hm
      (computeMTV2D_axis _ _ _ hmtv) hparx hparz happ
    unfold resolveVehiclePair
    rw [hmtv, ha, hb]
    simp only [hswap]
    constructor <;> trivial

/-- Concrete moving body for the C4 counterexample: velocity `(2, 3)` has a
tangential component 3 along the contact. -/
def cexBodyA : Body := ⟨⟨0, 0⟩, some ⟨2, 3⟩, none, 1, 1⟩

/-- Concrete stationary body overlapping `cexBodyA` on the x axis. -/
def cexBodyB : Body := ⟨⟨3/2, 0⟩, some ⟨0, 0⟩, none, 1, 1⟩

/-- Options with elasticity 1 and equal unit masses (other fields the source
defaults). -/
def cexOptions : ResolveOptions := ⟨1, 3/5, 1, 1, 1/4, 3/2⟩

/-- C4 counterexample: with elasticity 1, equal masses, `B` stationary and
the pair approaching (relative velocity along the normal `-2`), the moving
body keeps a tangential component (`1.8` after the friction mutation) and the
stationary body only receives the normal component: the outgoing velocities
are `(0, 1.8)` and `(2, 0)`, not the swapped `(0, 0)` and `(2, 3)` — a gap
far beyond floating-point tolerance. -/
theorem C4_counterexample :
    (resolveVehiclePair M0 cexOptions cexBodyA cexBodyB).2.1.vel =
      some ⟨0, 9/5⟩ ∧
    (resolveVehiclePair M0 cexOptions cexBodyA cexBodyB).2.2.vel =
      some ⟨2, 0⟩ ∧
    some (⟨0, 9/5⟩ : Vec2) ≠ some (⟨0, 0⟩ : Vec2) ∧
    some (⟨2, 0⟩ : Vec2) ≠ some (⟨2, 3⟩ : Vec2) := by
  have hmtv : computeMTV2D (bodyBox cexBodyA) (bodyBox cexBodyB) =
      some ⟨-1/2, 0⟩ := by
    norm_num [computeMTV2D, bodyBox, cexBodyA, cexBodyB]
  have hres : resolveBothVelocities cexOptions ⟨-1/2, 0⟩ ⟨2, 3⟩ ⟨0, 0⟩ =
      (⟨0, 9/5⟩, ⟨2, 0⟩) := by
    norm_num [resolveBothVelocities, applyImpulsePair, applyTangentFriction,
      mtvNormal, signQ, cexOptions]
  refine ⟨?_, ?_, by simp [Vec2.mk.injEq], by simp [Vec2.mk.injEq]⟩
  · unfold resolveVehiclePair
    rw [hmtv, show cexBodyA.vel = some (⟨2, 3⟩ : Vec2) from rfl,
      show cexBodyB.vel = some (⟨0, 0⟩ : Vec2) from rfl]
    simp only [hres]
  · unfold resolveVehiclePair
    rw [hmtv, show cexBodyA.vel = some (⟨2, 3⟩ : Vec2) from rfl,
      show cexBodyB.vel = some (⟨0, 0⟩ : Vec2) from rfl]
    simp only [hres]

/-- Concrete moving body whose velocity `(2, 0)` is purely along the contact
normal. -/
def swapBodyA : Body := ⟨⟨0, 0⟩, some ⟨2, 0⟩, none, 1, 1⟩

/-- C4 witness: the swap conclusion applied at a concrete head-on pair. -/
theorem C4_impulse_symmetry_witness :
    (resolveVehiclePair M0 cexOptions swapBodyA cexBodyB).2.1.vel =
      some ⟨0, 0⟩ ∧
    (resolveVehiclePair M0 cexOptions swapBodyA cexBodyB).2.2.vel =
      some ⟨2, 0⟩ := by
  have hmtv : computeMTV2D (bodyBox swapBodyA) (bodyBox cexBodyB) =
      some ⟨-1/2, 0⟩ := by
    norm_num [computeMTV2D, bodyBox, swapBodyA, cexBodyB]
  have hn : mtvNormal ⟨-1/2, 0⟩ = (⟨-1, 0⟩ : Vec2) := by
    norm_num [mtvNormal, signQ]
  refine C4_impulse_symmetry.2 M0 cexOptions swapBodyA cexBodyB ⟨2, 0⟩ 1
    ⟨-1/2, 0⟩ rfl rfl rfl (by norm_num) rfl rfl hmtv ?_ ?_ ?_
  · rw [hn]
    norm_num
  · rw [hn]
    norm_num
  · rw [hn]
    norm_num

/-! ## C2: crash state machine
(CollisionSystem lines 141-260 and PlayerCar.update crash phases) -/

/-- The padded building footprint used by `_checkPlayerBuildingCollisions`
(`playerRadius = 1.5` added to each half extent; box height components are
irrelevant to the x/z overlap test). -/
def buildingPaddedBox (b : Building) : Box :=
  ⟨b.centerX - (b.width / 2 + 3/2), b.centerZ - (b.depth / 2 + 3/2),
    b.centerX + (b.width / 2 + 3/2), b.centerZ + (b.depth / 2 + 3/2)⟩

/-- `PlayerCar.getBoundingBox` (x/z components, padding 0.5). -/
def playerBox (p : PlayerState) : Box :=
  ⟨p.pos.x - (PLAYER_WIDTH / 2 + 1/2), p.pos.z - (PLAYER_LENGTH / 2 + 1/2),
    p.pos.x + (PLAYER_WIDTH / 2 + 1/2), p.pos.z + (PLAYER_LENGTH / 2 + 1/2)⟩

/-- `CollisionSystem._handlePlayerBuildingCollision` on the padded box of the
hit building: immediate full stop, position clamped just outside the padded
footprint along the axis of larger normalized center offset, reverse
direction captured as the negative of the car's forward heading, crash timers
armed, collision cooldown set to 1200 ms.  The source guard
`normalizedDx > 0` equals `dx > 0` except in the degenerate zero-distance
case, where the fallback normal `(1, 0)` makes it true; `normalizedDz > 0`
is false in that case (fallback 0).  Effects and sound are dropped. -/
def handlePlayerBuildingCollision (M : JSMath) (box : Box) (p : PlayerState) :
    PlayerState × ℚ :=
  let p1 : PlayerState := { p with vel := ⟨0, 0⟩, speed := 0 }
  let dx := p.pos.x - (box.minX + box.maxX) / 2
  let dz := p.pos.z - (box.minZ + box.maxZ) / 2
  let degenerate := dx = 0 ∧ dz = 0
  let buildingWidth := box.maxX - box.minX
  let buildingDepth := box.maxZ - box.minZ
  let absNormDx := |dx| / buildingWidth
  let absNormDz := |dz| / buildingDepth
  let minClearance : ℚ := 3/2 + 1/2
  let p2 : PlayerState :=
    if absNormDz < absNormDx then
      { p1 with pos := ⟨(if (if degenerate then True else 0 < dx) then
          box.maxX + minClearance else box.minX - minClearance), p1.pos.z⟩ }
    else
      { p1 with pos := ⟨p1.pos.x, (if (if degenerate then False else 0 < dz)
          then box.maxZ + minClearance else box.minZ - minClearance)⟩ }
  let carForwardX := M.sin p.rotation
  let carForwardZ := M.cos p.rotation
  let p3 : PlayerState := { p2 with
    crashReverseDirection := ⟨-carForwardX, -carForwardZ⟩,
    isCrashed := true, crashStunTimer := 1/5, crashReverseTimer := 4/5 }
  (p3, 1200)

/-- `CollisionSystem._checkPlayerBuildingCollisions`: skipped during crash
recovery, otherwise the first building whose padded footprint overlaps the
player bounding box is handled. -/
def checkPlayerBuildingCollisions (M : JSMath) (buildings : List Building)
    (p : PlayerState) (cooldown : ℚ) : PlayerState × ℚ :=
  if p.isCrashed then (p, cooldown)
  else
    match buildings.find?
        (fun b => checkAABBCollision (playerBox p) (buildingPaddedBox b)) with
    | some b => handlePlayerBuildingCollision M (buildingPaddedBox b) p
    | none => (p, cooldown)

/-- C2. Crash state machine: an uncrashed player overlapping a building's
padded footprint transitions to the crash state the same tick, with velocity
and scalar speed forced to exactly zero, position clamped just outside the
padded footprint along the dominant axis, reverse direction the negative of
the current forward heading, stun timer 0.2 and reverse timer 0.8; while
stunned the update zeroes velocity and speed and only counts the stun timer
down, for every input; while reversing the update moves strictly along the
normalized captured direction scaled by the eased speed profile, keeps speed
0, and returns to the normal state exactly when the reverse timer runs out;
and the eased profile is lower at 15% and at 90% progress than at 50%. -/
theorem C2_crash_state_machine :
    (∀ (M : JSMath) (buildings : List Building) (p : PlayerState) (c : ℚ)
      (b : Building),
      ¬p.isCrashed →
      buildings.find?
        (fun bb => checkAABBCollision (playerBox p) (buildingPaddedBox bb)) =
          some b →
      (checkPlayerBuildingCollisions M buildings p c).1.isCrashed = true ∧
      (checkPlayerBuildingCollisions M buildings p c).1.vel = ⟨0, 0⟩ ∧
      (checkPlayerBuildingCollisions M buildings p c).1.speed = 0 ∧
      (checkPlayerBuildingCollisions M buildings p c).1.crashStunTimer = 1/5 ∧
      (checkPlayerBuildingCollisions M buildings p c).1.crashReverseTimer =
        4/5 ∧
      (checkPlayerBuildingCollisions M buildings p c).1.crashReverseDirection =
        ⟨-(M.sin p.rotation), -(M.cos p.rotation)⟩ ∧
      (checkPlayerBuildingCollisions M buildings p c).2 = 1200 ∧
      (((checkPlayerBuildingCollisions M buildings p c).1.pos.z = p.pos.z ∧
        ((checkPlayerBuildingCollisions M buildings p c).1.pos.x =
            (buildingPaddedBox b).maxX + 2 ∨
          (checkPlayerBuildingCollisions M buildings p c).1.pos.x =
            (buildingPaddedBox b).minX - 2)) ∨
        ((checkPlayerBuildingCollisions M buildings p c).1.pos.x = p.pos.x ∧
        ((checkPlayerBuildingCollisions M buildings p c).1.pos.z =
            (buildingPaddedBox b).maxZ + 2 ∨
          (checkPlayerBuildingCollisions M buildings p c).1.pos.z =
            (buildingPaddedBox b).minZ - 2)))) ∧
    (∀ (M : JSMath) (dt : ℚ) (p : PlayerState) (i : Input),
      p.isAlive = true → p.isTrapped = false → p.isFalling = false →
      p.isCrashed = true → 0 < p.crashStunTimer →
      playerUpdate M dt { p with input := i } =
        { p with
          input := i, vel := ⟨0, 0⟩, speed := 0,
          crashStunTimer := p.crashStunTimer - dt }) ∧
    (∀ (M : JSMath) (dt : ℚ) (p : PlayerState) (L : ℚ),
      p.isAlive = true → p.isTrapped = false → p.isFalling = false →
      p.isCrashed = true → p.crashStunTimer ≤ 0 → 0 < p.crashReverseTimer →
      M.sqrt (p.crashReverseDirection.x ^ 2 + p.crashReverseDirection.z ^ 2) =
        L →
      1/100 < L →
      (playerUpdate M dt p).pos.x = p.pos.x +
        (p.crashReverseDirection.x / L) *
          (12 * reverseSpeedMultiplier (1 - p.crashReverseTimer / (4/5))) *
            dt ∧
      (playerUpdate M dt p).pos.z = p.pos.z +
        (p.crashReverseDirection.z / L) *
          (12 * reverseSpeedMultiplier (1 - p.crashReverseTimer / (4/5))) *
            dt ∧
      (playerUpdate M dt p).speed = 0 ∧
      (playerUpdate M dt p).isCrashed =
        (if p.crashReverseTimer - dt ≤ 0 then false else true) ∧
      (playerUpdate M dt p).crashReverseTimer =
        (if p.crashReverseTimer - dt ≤ 0 then 0
          else p.crashReverseTimer - dt)) ∧
    (reverseSpeedMultiplier (15/100) = 1/2 ∧
      reverseSpeedMultiplier (1/2) = 1 ∧
      reverseSpeedMultiplier (9/10) = 1/3 ∧
      reverseSpeedMultiplier (15/100) < reverseSpeedMultiplier (1/2) ∧
      reverseSpeedMultiplier (9/10) < reverseSpeedMultiplier (1/2)) := by
  refine ⟨?_, ?_, ?_, ?_⟩
  · intro M buildings p c b hnc hfind
    have hred : checkPlayerBuildingCollisions M buildings p c =
        handlePlayerBuildingCollision M (buildingPaddedBox b) p := by
      unfold checkPlayerBuildingCollisions
      rw [if_neg (by simp [hnc]), hfind]
    rw [hred]
    simp only [handlePlayerBuildingCollision]
    split_ifs <;>
      refine ⟨by trivial, by trivial, by trivial, by trivial, by trivial,
        by trivial, by trivial, ?_⟩ <;>
      first
        | (exfalso; simp_all; done)
        | (left; refine ⟨?_, Or.inl ?_⟩ <;> (norm_num; done))
        | (left; refine ⟨?_, Or.inr ?_⟩ <;> (norm_num; done))
        | (right; refine ⟨?_, Or.inl ?_⟩ <;> (norm_num; done))
        | (right; refine ⟨?_, Or.inr ?_⟩ <;> (norm_num; done))
  · intro M dt p i h1 h2 h3 h4 h5
    unfold playerUpdate
    rw [if_neg (by simp [h1]), if_neg (by simp [h2]), if_neg (by simp [h3]),
      if_pos (by exact ⟨h4, h5⟩)]
    rfl
  · intro M dt p L h1 h2 h3 h4 h5 h6 hL hLpos
    unfold playerUpdate
    rw [if_neg (by simp [h1]), if_neg (by simp [h2]), if_neg (by simp [h3]),
      if_neg (by intro hcon; exact absurd hcon.2 (not_lt.mpr h5)),
      if_pos ⟨h4, h6⟩]
    simp only [crashReverseStep]
    rw [hL, if_pos hLpos]
    by_cases hend : p.crashReverseTimer - dt ≤ 0
    · rw [if_pos hend]
      try rw [if_pos hend]
      try rw [if_pos hend]
      refine ⟨?_, ?_, ?_, ?_, ?_⟩ <;> norm_num
    · rw [if_neg hend]
      try rw [if_neg hend]
      try rw [if_neg hend]
      refine ⟨?_, ?_, ?_, ?_, ?_⟩ <;> first | exact h4 | norm_num
  · norm_num [reverseSpeedMultiplier]

/-- A `Math` instance whose square root returns 1 (exact for the unit-length
captured direction of the crash witness). -/
def M1 : JSMath := ⟨fun _ => 1, fun _ => 0, fun _ => 1⟩

/-- C2 witness: the state machine theorem applied at a concrete overlapping
building, a concrete stunned state, and a concrete reversing state. -/
theorem C2_crash_state_machine_witness :
    (checkPlayerBuildingCollisions M0 [⟨0, 3, 2, 2, 5⟩] basePlayer 0).1.isCrashed =
      true ∧
    (playerUpdate M0 (1/10)
      { basePlayer with isCrashed := true, crashStunTimer := 1/5 }).speed = 0 ∧
    (playerUpdate M1 (1/10)
      { basePlayer with
        isCrashed := true, crashReverseTimer := 2/5,
        crashReverseDirection := ⟨0, -1⟩ }).speed = 0 := by
  refine ⟨?_, ?_, ?_⟩
  · exact (C2_crash_state_machine.1 M0 [⟨0, 3, 2, 2, 5⟩] basePlayer 0
      ⟨0, 3, 2, 2, 5⟩ (by decide)
      (by norm_num [List.find?, checkAABBCollision, playerBox,
        buildingPaddedBox, basePlayer, PLAYER_WIDTH, PLAYER_LENGTH])).1
  · have h := C2_crash_state_machine.2.1 M0 (1/10)
      { basePlayer with isCrashed := true, crashStunTimer := 1/5 }
      basePlayer.input rfl rfl rfl rfl (by norm_num)
    exact congrArg PlayerState.speed h
  · have h := C2_crash_state_machine.2.2.1 M1 (1/10)
      { basePlayer with
        isCrashed := true, crashReverseTimer := 2/5,
        crashReverseDirection := ⟨0, -1⟩ }
      1 rfl rfl rfl rfl (by norm_num [basePlayer]) (by norm_num)
      (by norm_num [M1]) (by norm_num)
    exact h.2.2.1

/-- Events emitted by the collision system during a player–enemy contact
frame: a visual collision effect at a position with an intensity
(`effectsSystem.createCollisionEffect`), and a collision sound at a volume
(`soundSystem.playCollisionSound`).  `playerTrapped` stands for the terminal
game-over path (`playerRef.setTrapped()`), which only the containment
detector `_checkPlayerTrapped` may take. -/
inductive GameEvent where
  | collisionEffect (pos : Vec2) (intensity : ℚ)
  | collisionSound (volume : ℚ)
  | playerTrapped
deriving DecidableEq

/-- `EnemyChaser.getBoundingBox`: the enemy footprint enlarged by a 0.5
padding on each side. -/
def enemyBoundingBox (pos : Vec2) : Box :=
  ⟨pos.x - (ENEMY_WIDTH / 2 + 1/2), pos.z - (ENEMY_LENGTH / 2 + 1/2),
    pos.x + (ENEMY_WIDTH / 2 + 1/2), pos.z + (ENEMY_LENGTH / 2 + 1/2)⟩

/-- `CollisionSystem._handlePlayerEnemyCollision`: rearms the collision
cooldown to `cooldownDuration` (300 ms), emits the visual effect at the
player position with intensity 1.2 and the collision sound at volume 0.5,
and touches nothing else — the player state is returned exactly as received
and no callback runs ("NO CALLBACKS - game over only via trapped
detection"). -/
def handlePlayerEnemyCollision (p : PlayerState) :
    PlayerState × ℚ × List GameEvent :=
  (p, 300,
    [GameEvent.collisionEffect p.pos (6/5), GameEvent.collisionSound (1/2)])

/-- `CollisionSystem._checkPlayerEnemyCollision`: early return while the
cooldown is still positive; otherwise scan the enemies and handle the first
bounding-box overlap with the player (one collision per frame). -/
def checkPlayerEnemyCollision (p : PlayerState) (cooldown : ℚ)
    (enemies : List Vec2) : PlayerState × ℚ × List GameEvent :=
  if 0 < cooldown then (p, cooldown, [])
  else if enemies.any
      (fun e => checkAABBCollision (playerBox p) (enemyBoundingBox e)) then
    handlePlayerEnemyCollision p
  else (p, cooldown, [])

/-- C10: a player–police bounding-box contact by itself never ends the game
and never alters the player's motion state.  For every player state, cooldown
and enemy list, the contact-check frame (a) returns the player component
unchanged — hence position, velocity, scalar speed and the alive/trapped
flags are all untouched; (b) never emits the terminal `playerTrapped` event;
(c) on an overlap with the cooldown expired it rearms the cooldown to
300 ms and emits exactly the visual effect at intensity 1.2 and the sound at
volume 0.5; (d) with the cooldown still running, or with no overlap, it is a
complete no-op; and (e) the terminal transition is the containment detector's
`setTrapped`, which does set the trapped flag. -/
theorem C10_player_enemy_frame_effect (p : PlayerState) (cooldown : ℚ)
    (enemies : List Vec2) :
    (checkPlayerEnemyCollision p cooldown enemies).1 = p ∧
    GameEvent.playerTrapped ∉ (checkPlayerEnemyCollision p cooldown enemies).2.2 ∧
    (cooldown ≤ 0 →
      enemies.any
        (fun e => checkAABBCollision (playerBox p) (enemyBoundingBox e)) = true →
      (checkPlayerEnemyCollision p cooldown enemies).2.1 = 300 ∧
      (checkPlayerEnemyCollision p cooldown enemies).2.2 =
        [GameEvent.collisionEffect p.pos (6/5),
          GameEvent.collisionSound (1/2)]) ∧
    ((0 < cooldown ∨
      enemies.any
        (fun e => checkAABBCollision (playerBox p) (enemyBoundingBox e)) = false) →
      checkPlayerEnemyCollision p cooldown enemies = (p, cooldown, [])) ∧
    (setTrapped p).isTrapped = true := by
  unfold checkPlayerEnemyCollision handlePlayerEnemyCollision
  by_cases hc : 0 < cooldown
  · rw [if_pos hc]
    exact ⟨rfl, by simp, fun hle _ => absurd hc (not_lt.mpr hle),
      fun _ => rfl, rfl⟩
  · rw [if_neg hc]
    by_cases ha : enemies.any
        (fun e => checkAABBCollision (playerBox p) (enemyBoundingBox e)) = true
    · rw [if_pos ha]
      refine ⟨rfl, by simp, fun _ _ => ⟨rfl, rfl⟩, ?_, rfl⟩
      rintro (h | h)
      · exact absurd h hc
      · rw [ha] at h; exact absurd h (by simp)
    · rw [if_neg ha]
      exact ⟨rfl, by simp, fun _ hany => absurd hany ha, fun _ => rfl, rfl⟩

/-- C10 witness: the frame-effect theorem applied with the cooldown expired
and one enemy overlapping the player at the origin. -/
theorem C10_player_enemy_frame_effect_witness :
    (checkPlayerEnemyCollision basePlayer 0 [⟨0, 0⟩]).1 = basePlayer ∧
    (checkPlayerEnemyCollision basePlayer 0 [⟨0, 0⟩]).2.1 = 300 := by
  have h := C10_player_enemy_frame_effect basePlayer 0 [⟨0, 0⟩]
  refine ⟨h.1, (h.2.2.1 (le_refl 0) ?_).1⟩
  norm_num [List.any_cons, List.any_nil, checkAABBCollision, playerBox,
    enemyBoundingBox, basePlayer, PLAYER_WIDTH, PLAYER_LENGTH, ENEMY_WIDTH,
    ENEMY_LENGTH]
